import Mathlib

/-!
masjidFindBnd2: request workflow and role-gated controllers

A shallow embedding of the controllers of the repository
(`controllers/authController.js`, `controllers/masjidController.js`,
`controllers/requestController.js`) together with the two schemas
`models/Request.js` and `models/Masjid.js`.

Modelling conventions.

* The three Mongoose collections are lists of records; a document id is a `Nat`
  and fresh ids are drawn from the counter `State.nextId`.
* `Model.findById` is the first record with that `_id`, `findByIdAndUpdate`
  rewrites the records with that `_id`, `deleteOne` / `findByIdAndDelete`
  drops them, `Model.create` appends.
* A JavaScript value that may be `undefined` is an `Option`.
* JavaScript `Number`s in the coordinate fields are represented by `Int`:
  the controllers test them for truthiness (zero is falsy) and copy them, and
  the index on `location` compares them with the bounds of a coordinate.
* Every controller returns the new state of the stores and the HTTP response
  (`status`, `success`, `message`).  The message of a caught exception
  (`error.message`, status 500) is not modelled and is `none`.
* Timestamps (`createdAt`, `updatedAt`) and the `populate` projections of the
  response payload are not modelled.
* A key whose value is `undefined` in an update document is not written, and an
  `undefined` id matches no document.
* The body of `createRequest` and the route parameter of `deleteRequest` are
  taken as submitted: an id may be malformed (`IdParam`) and a coordinate may be
  a value that is not a number (`NumParam`).  Mongoose rejects such a value when
  it casts it; the rejection is caught and answered with status 500.
* The ids passed to the other controllers are well-formed ids, and the
  string-valued fields of a body are strings.
* The 2dsphere index of `masjidSchema` accepts a `location` only when its
  coordinates are a longitude in [-180, 180] and a latitude in [-90, 90]; an
  insert or update that writes another `location` rejects.
* A store call of `processRequest` may reject (`StoreFault`); the rejection is
  caught by the controller and answered with status 500.
-/

namespace MasjidFind

/-! ## Data model -/

/-- Modelled from the spec: `models/User.js` is not among the sources; the role
of a user is one of `main_admin`, `admin`, `user`. -/
inductive Role where
  | main_admin
  | admin
  | user
  deriving DecidableEq, Repr

/-- The `type` enum of `requestSchema`. -/
inductive ReqType where
  | admin_access
  | add_masjid
  | edit_masjid
  | delete_masjid
  deriving DecidableEq, Repr

/-- The `status` enum of `requestSchema`. -/
inductive Status where
  | pending
  | approved
  | rejected
  deriving DecidableEq, Repr

/-- Modelled from the spec: `models/User.js` is not among the sources; a user
record has an id, a display name, an email, a credential and a role. -/
structure User where
  _id : Nat
  name : String
  email : String
  password : String
  role : Role
  deriving DecidableEq, Repr

/-- The six time strings of `prayerTimeSchema` / `masjidData.prayerTimes`. -/
structure PrayerTimes where
  fajr : Option String
  dhuhr : Option String
  asr : Option String
  maghrib : Option String
  isha : Option String
  jummah : Option String
  deriving DecidableEq, Repr

/-- The `masjidData` payload of `requestSchema`; also the shape of the body of
`createMasjid` and `updateMasjid`. -/
structure MasjidData where
  name : Option String
  address : Option String
  latitude : Option Int
  longitude : Option Int
  prayerTimes : Option PrayerTimes
  description : Option String
  phoneNumber : Option String
  deriving DecidableEq, Repr

/-- The `location` of a masjid: a GeoJSON `Point` whose `coordinates` are
`[longitude, latitude]`. -/
structure Location where
  coordinates : List (Option Int)
  deriving DecidableEq, Repr

/-- A document of `masjidSchema`. -/
structure Masjid where
  _id : Nat
  name : String
  address : String
  location : Location
  prayerTimes : PrayerTimes
  description : String
  phoneNumber : String
  addedBy : Nat
  deriving DecidableEq, Repr

/-- A document of `requestSchema`. -/
structure Request where
  _id : Nat
  type : ReqType
  requestedBy : Nat
  status : Status
  masjidId : Option Nat
  masjidData : MasjidData
  reason : Option String
  adminResponse : Option String
  processedBy : Option Nat
  deriving DecidableEq, Repr

/-- The three stores and the id generator. -/
structure State where
  users : List User
  masjids : List Masjid
  requests : List Request
  nextId : Nat
  deriving DecidableEq, Repr

/-- The uniform response envelope: HTTP status, `success` flag and `message`. -/
structure Response where
  status : Nat
  success : Bool
  message : Option String
  deriving DecidableEq, Repr

/-- The authenticated caller `req.user`: its `id` and its `role`. -/
structure Actor where
  id : Nat
  role : Role
  deriving DecidableEq, Repr

/-- A value submitted where an ObjectId is expected: a well-formed id, or
anything else. -/
inductive IdParam where
  | oid (n : Nat)
  | malformed
  deriving DecidableEq, Repr

/-- A value submitted where a Number is expected: a number, or a value that
Mongoose cannot cast to a number. -/
inductive NumParam where
  | num (n : Int)
  | notNumber
  deriving DecidableEq, Repr

/-- The `masjidData` of the body of `POST /api/requests`, as submitted. -/
structure MasjidInput where
  name : Option String
  address : Option String
  latitude : Option NumParam
  longitude : Option NumParam
  prayerTimes : Option PrayerTimes
  description : Option String
  phoneNumber : Option String
  deriving DecidableEq, Repr

/-- The body of `POST /api/requests`. -/
structure RequestBody where
  type : String
  masjidId : Option IdParam
  masjidData : MasjidInput
  reason : Option String
  deriving DecidableEq, Repr

/-- Where a store call of `processRequest` rejects, if anywhere. -/
inductive StoreFault where
  | noFault
  | atSideEffect
  | atSave
  deriving DecidableEq, Repr

/-! ## Strings -/

/-- The characters removed by `String.prototype.trim`: ECMAScript white space
and line terminators. -/
def isJsWhitespace (c : Char) : Bool :=
  let n := c.toNat
  n == 0x09 || n == 0x0A || n == 0x0B || n == 0x0C || n == 0x0D || n == 0x20 ||
  n == 0xA0 || n == 0x1680 || (0x2000 ≤ n && n ≤ 0x200A) || n == 0x2028 ||
  n == 0x2029 || n == 0x202F || n == 0x205F || n == 0x3000 || n == 0xFEFF

/-- The setter of a schema path declared with `trim: true`. -/
def jsTrim (s : String) : String :=
  String.mk ((s.data.dropWhile isJsWhitespace).reverse.dropWhile isJsWhitespace).reverse

/-- Truthiness of a string that may be `undefined`. -/
def truthyStr : Option String → Bool
  | some s => s != ""
  | none => false

/-- Truthiness of a number that may be `undefined`: zero is falsy. -/
def truthyNum : Option Int → Bool
  | some n => n != 0
  | none => false

/-- The test `['admin_access', 'add_masjid', 'edit_masjid', 'delete_masjid'].includes(type)`. -/
def parseType (t : String) : Option ReqType :=
  if t = "admin_access" then some ReqType.admin_access
  else if t = "add_masjid" then some ReqType.add_masjid
  else if t = "edit_masjid" then some ReqType.edit_masjid
  else if t = "delete_masjid" then some ReqType.delete_masjid
  else none

/-- The test `['approved', 'rejected'].includes(status)`. -/
def parseDecision (t : String) : Option Status :=
  if t = "approved" then some Status.approved
  else if t = "rejected" then some Status.rejected
  else none

/-- The test `['user', 'admin'].includes(role)`. -/
def parseNewRole (t : String) : Option Role :=
  if t = "user" then some Role.user
  else if t = "admin" then some Role.admin
  else none

/-! ## Casting submitted values -/

/-- Casting a submitted value to an ObjectId path: `none` is a `CastError`,
`some none` an absent value. -/
def castId : Option IdParam → Option (Option Nat)
  | none => some none
  | some (IdParam.oid n) => some (some n)
  | some IdParam.malformed => none

/-- Casting a submitted value to a Number path: `none` is a `CastError`. -/
def castNum : Option NumParam → Option (Option Int)
  | none => some none
  | some (NumParam.num n) => some (some n)
  | some NumParam.notNumber => none

/-- Casting the submitted `masjidData` to the `masjidData` of `requestSchema`;
`none` when a coordinate cannot be cast. -/
def castMasjidData (i : MasjidInput) : Option MasjidData :=
  match castNum i.latitude, castNum i.longitude with
  | some lat, some lon =>
    some { name := i.name, address := i.address, latitude := lat, longitude := lon,
           prayerTimes := i.prayerTimes, description := i.description,
           phoneNumber := i.phoneNumber }
  | _, _ => none

/-- A stored `masjidData` seen as a submission. -/
def MasjidData.toInput (d : MasjidData) : MasjidInput :=
  { name := d.name, address := d.address
    latitude := d.latitude.map NumParam.num
    longitude := d.longitude.map NumParam.num
    prayerTimes := d.prayerTimes, description := d.description
    phoneNumber := d.phoneNumber }

/-! ## Store primitives -/

/-- The call `User.findById(id)`. -/
def User.findById (us : List User) (id : Nat) : Option User :=
  us.find? (fun u => u._id == id)

/-- The call `User.findOne({ email })`. -/
def User.findOneByEmail (us : List User) (email : String) : Option User :=
  us.find? (fun u => u.email == email)

/-- The call `User.findByIdAndUpdate(id, { role })`. -/
def User.findByIdAndUpdateRole (us : List User) (id : Nat) (role : Role) : List User :=
  us.map (fun u => if u._id = id then { u with role := role } else u)

/-- The call `Masjid.findById(id)`. -/
def Masjid.findById (ms : List Masjid) (id : Nat) : Option Masjid :=
  ms.find? (fun m => m._id == id)

/-- The calls `masjid.deleteOne()` and `Masjid.findByIdAndDelete(id)`. -/
def Masjid.deleteById (ms : List Masjid) (id : Nat) : List Masjid :=
  ms.filter (fun m => m._id != id)

/-- The call `Request.findById(id)`. -/
def Request.findById (rs : List Request) (id : Nat) : Option Request :=
  rs.find? (fun r => r._id == id)

/-- The call `request.save()`: the stored document with the id of `r` becomes `r`. -/
def Request.save (rs : List Request) (r : Request) : List Request :=
  rs.map (fun x => if x._id = r._id then r else x)

/-- The call `request.deleteOne()`. -/
def Request.deleteById (rs : List Request) (id : Nat) : List Request :=
  rs.filter (fun r => r._id != id)

/-- The query `Request.findOne({ requestedBy, type: 'admin_access', status: 'pending' })`. -/
def Request.findPendingAdminAccess (rs : List Request) (uid : Nat) : Option Request :=
  rs.find? (fun r => r.requestedBy == uid && r.type == ReqType.admin_access
    && r.status == Status.pending)

/-! ## The Masjid schema -/

/-- The `required: true` validator of a string path: the value is present and
not the empty string. -/
def requiredStr : Option String → Bool
  | some s => s != ""
  | none => false

/-- Casting a value to `prayerTimeSchema`: `jummah` has `default: ''`. -/
def castPrayerTimes (p : PrayerTimes) : PrayerTimes :=
  { p with jummah := some (p.jummah.getD "") }

/-- The validators of `prayerTimeSchema`: the five daily times are required. -/
def validPrayerTimes (p : PrayerTimes) : Bool :=
  requiredStr p.fajr && requiredStr p.dhuhr && requiredStr p.asr &&
  requiredStr p.maghrib && requiredStr p.isha

/-- What the 2dsphere index on `location` accepts: a pair `[longitude, latitude]`
of numbers with the longitude in [-180, 180] and the latitude in [-90, 90]. -/
def validLocation (loc : Location) : Bool :=
  match loc.coordinates with
  | [some lon, some lat] =>
    decide (-180 ≤ lon) && decide (lon ≤ 180) && decide (-90 ≤ lat) && decide (lat ≤ 90)
  | _ => false

/-- What `Masjid.create({ ...d, location: loc, addedBy })` requires of the
document: the validators of `masjidSchema` (`name` and `address` required after
trimming, `prayerTimes` required and valid) and a `location` that the 2dsphere
index accepts. -/
def validMasjidData (d : MasjidData) (loc : Location) : Bool :=
  requiredStr (d.name.map jsTrim) && requiredStr (d.address.map jsTrim) &&
  (match d.prayerTimes with
   | some p => validPrayerTimes p
   | none => false) &&
  validLocation loc

/-- The document built by `Masjid.create({ ...d, location, addedBy })`: the
setters (`trim`) and defaults (`''`) of `masjidSchema` applied to the paths of
the schema; `latitude` and `longitude` are not paths of the schema and are
dropped. -/
def Masjid.build (id : Nat) (d : MasjidData) (loc : Location) (addedBy : Nat) : Masjid :=
  { _id := id
    name := jsTrim (d.name.getD "")
    address := jsTrim (d.address.getD "")
    location := loc
    prayerTimes := castPrayerTimes (d.prayerTimes.getD ⟨none, none, none, none, none, none⟩)
    description := jsTrim (d.description.getD "")
    phoneNumber := jsTrim (d.phoneNumber.getD "")
    addedBy := addedBy }

/-- The call `Masjid.create({ ...d, location, addedBy })`: validation, then
insertion under a fresh id; `none` when validation or the insert rejects. -/
def Masjid.create (s : State) (d : MasjidData) (loc : Location) (addedBy : Nat) : Option State :=
  if validMasjidData d loc then
    some { s with masjids := s.masjids ++ [Masjid.build s.nextId d loc addedBy]
                  nextId := s.nextId + 1 }
  else none

/-- The update document applied by `Masjid.findByIdAndUpdate(id, upd)`: a path
that is `undefined` in the update keeps its stored value. -/
def Masjid.applyUpdate (m : Masjid) (d : MasjidData) (loc : Option Location) : Masjid :=
  { m with
    name := match d.name with
      | some n => jsTrim n
      | none => m.name
    address := match d.address with
      | some a => jsTrim a
      | none => m.address
    prayerTimes := match d.prayerTimes with
      | some p => castPrayerTimes p
      | none => m.prayerTimes
    description := match d.description with
      | some x => jsTrim x
      | none => m.description
    phoneNumber := match d.phoneNumber with
      | some x => jsTrim x
      | none => m.phoneNumber
    location := match loc with
      | some l => l
      | none => m.location }

/-- Whether the update document writes a `location` that the 2dsphere index
does not accept. -/
def rejectedLocation : Option Location → Bool
  | some l => !validLocation l
  | none => false

/-- The call `Masjid.findByIdAndUpdate(id, { ...d, location })`; `none` when a
masjid is matched and the index rejects the `location` that is written. -/
def Masjid.findByIdAndUpdate (ms : List Masjid) (id : Option Nat) (d : MasjidData)
    (loc : Option Location) : Option (List Masjid) :=
  if ms.any (fun m => some m._id == id) && rejectedLocation loc then none
  else some (ms.map (fun m => if some m._id = id then Masjid.applyUpdate m d loc else m))

/-! ## authController.js -/

/-- The controller `register`.  `models/User.js` is not among the sources, so the
outcome of its schema validation inside `User.create` is the input `schemaOk`;
a rejected `User.create` is caught and answered with status 500. -/
def register (s : State) (name email password : String) (schemaOk : Bool) :
    State × Response :=
  match User.findOneByEmail s.users email with
  | some _ => (s, ⟨400, false, some "User already exists with this email"⟩)
  | none =>
    let userCount := s.users.length
    let role := if userCount = 0 then Role.main_admin else Role.user
    if schemaOk then
      ({ s with users := s.users ++ [⟨s.nextId, name, email, password, role⟩]
                nextId := s.nextId + 1 },
       ⟨201, true, some (if userCount = 0 then "Main admin account created successfully"
                         else "User registered successfully")⟩)
    else (s, ⟨500, false, none⟩)

/-- The controller `updateUserRole`.  Reading `targetUser.role` of a missing
user throws and is answered with status 500. -/
def updateUserRole (s : State) (actor : Actor) (id : Nat) (role : String) :
    State × Response :=
  if actor.role ≠ Role.main_admin then
    (s, ⟨403, false, some "Only main admin can change user roles"⟩)
  else
    match User.findById s.users id with
    | none => (s, ⟨500, false, none⟩)
    | some targetUser =>
      if targetUser.role = Role.main_admin then
        (s, ⟨403, false, some "Cannot change main admin role"⟩)
      else
        match parseNewRole role with
        | none => (s, ⟨400, false, some "Invalid role. Can only set to user or admin"⟩)
        | some r =>
          ({ s with users := User.findByIdAndUpdateRole s.users id r },
           ⟨200, true, some ("User role updated to " ++ role)⟩)

/-! ## masjidController.js -/

/-- The geolocation written by `updateMasjid` and by the `edit_masjid` branch of
`processRequest`: present only when `latitude && longitude` is truthy. -/
def editLocation (d : MasjidData) : Option Location :=
  if truthyNum d.latitude && truthyNum d.longitude then
    some ⟨[d.longitude, d.latitude]⟩
  else none

/-- The controller `createMasjid`. -/
def createMasjid (s : State) (actor : Actor) (body : MasjidData) : State × Response :=
  if !truthyStr body.name || !truthyStr body.address || !truthyNum body.latitude ||
      !truthyNum body.longitude || body.prayerTimes.isNone then
    (s, ⟨400, false, some "Please provide all required fields"⟩)
  else if actor.role ≠ Role.main_admin then
    (s, ⟨403, false,
      some "Only main admin can directly add masjids. Please submit a request."⟩)
  else
    match Masjid.create s body ⟨[body.longitude, body.latitude]⟩ actor.id with
    | none => (s, ⟨500, false, none⟩)
    | some s' => (s', ⟨201, true, some "Masjid created successfully"⟩)

/-- The object `updateData` assembled by `updateMasjid`. -/
def updateData (body : MasjidData) : MasjidData :=
  { name := if truthyStr body.name then body.name else none
    address := if truthyStr body.address then body.address else none
    latitude := none
    longitude := none
    prayerTimes := body.prayerTimes
    description := body.description
    phoneNumber := body.phoneNumber }

/-- The update validators run by `runValidators: true` on the paths that are set. -/
def validUpdate (d : MasjidData) : Bool :=
  (match d.name with
   | some n => jsTrim n != ""
   | none => true) &&
  (match d.address with
   | some a => jsTrim a != ""
   | none => true) &&
  (match d.prayerTimes with
   | some p => validPrayerTimes p
   | none => true)

/-- The controller `updateMasjid`. -/
def updateMasjid (s : State) (actor : Actor) (id : Nat) (body : MasjidData) :
    State × Response :=
  match Masjid.findById s.masjids id with
  | none => (s, ⟨404, false, some "Masjid not found"⟩)
  | some _ =>
    if actor.role ≠ Role.main_admin then
      (s, ⟨403, false,
        some "Only main admin can directly update masjids. Please submit a request."⟩)
    else if validUpdate (updateData body) then
      match Masjid.findByIdAndUpdate s.masjids (some id) (updateData body)
          (editLocation body) with
      | some masjids =>
        ({ s with masjids := masjids }, ⟨200, true, some "Masjid updated successfully"⟩)
      | none => (s, ⟨500, false, none⟩)
    else (s, ⟨500, false, none⟩)

/-- The controller `deleteMasjid`. -/
def deleteMasjid (s : State) (actor : Actor) (id : Nat) : State × Response :=
  match Masjid.findById s.masjids id with
  | none => (s, ⟨404, false, some "Masjid not found"⟩)
  | some _ =>
    if actor.role ≠ Role.main_admin then
      (s, ⟨403, false, some "Only main admin can delete masjids"⟩)
    else
      ({ s with masjids := Masjid.deleteById s.masjids id },
       ⟨200, true, some "Masjid deleted successfully"⟩)

/-- Modelled from the spec: `middleware/auth.js` is not among the sources;
`authorize(...roles)` lets a caller through exactly when its role is listed and
otherwise answers 403. -/
def authorize (roles : List Role) (actor : Actor) : Bool :=
  roles.contains actor.role

/-- The route `router.delete('/:id', protect, authorize('admin', 'main_admin'), deleteMasjid)`
for an authenticated caller. -/
def routeDeleteMasjid (s : State) (actor : Actor) (id : Nat) : State × Response :=
  if authorize [Role.admin, Role.main_admin] actor then deleteMasjid s actor id
  else (s, ⟨403, false, none⟩)

/-! ## requestController.js -/

/-- The controller `createRequest`.  `Request.create` casts `masjidId` and
`masjidData` to the schema; a value that cannot be cast makes it reject, which
is caught and answered with status 500. -/
def createRequest (s : State) (actor : Actor) (body : RequestBody) : State × Response :=
  match parseType body.type with
  | none => (s, ⟨400, false, some "Invalid request type"⟩)
  | some t =>
    if t = ReqType.admin_access ∧
        (Request.findPendingAdminAccess s.requests actor.id).isSome then
      (s, ⟨400, false, some "You already have a pending admin access request"⟩)
    else
      match castId body.masjidId, castMasjidData body.masjidData with
      | some masjidId, some masjidData =>
        ({ s with
            requests := s.requests ++
              [{ _id := s.nextId
                 type := t
                 requestedBy := actor.id
                 status := Status.pending
                 masjidId := masjidId
                 masjidData := masjidData
                 reason := body.reason.map jsTrim
                 adminResponse := none
                 processedBy := none }]
            nextId := s.nextId + 1 },
         ⟨201, true, some "Request submitted successfully"⟩)
      | _, _ => (s, ⟨500, false, none⟩)

/-- The `switch (request.type)` of `processRequest`, executed when the decision
is `approved`; `none` when the store call throws.  An absent `masjidId` is
taken to match no masjid. -/
def approveEffect (s : State) (request : Request) : Option State :=
  match request.type with
  | ReqType.admin_access =>
    some { s with users := User.findByIdAndUpdateRole s.users request.requestedBy Role.admin }
  | ReqType.add_masjid =>
    Masjid.create s request.masjidData
      ⟨[request.masjidData.longitude, request.masjidData.latitude]⟩ request.requestedBy
  | ReqType.edit_masjid =>
    match Masjid.findByIdAndUpdate s.masjids request.masjidId request.masjidData
        (editLocation request.masjidData) with
    | some masjids => some { s with masjids := masjids }
    | none => none
  | ReqType.delete_masjid =>
    match request.masjidId with
    | some mid => some { s with masjids := Masjid.deleteById s.masjids mid }
    | none => some s

/-- The side effect of `processRequest` for decision `d` under `fault`: only an
approval touches the user or masjid store. -/
def sideEffect (s : State) (request : Request) (d : Status) (fault : StoreFault) :
    Option State :=
  if d = Status.approved then
    if fault = StoreFault.atSideEffect then none else approveEffect s request
  else some s

/-- The controller `processRequest`.  The in-memory `request` is modified, the
side effect is awaited, and only then `request.save()` persists the
transition; any rejection is caught and answered with status 500. -/
def processRequest (s : State) (actor : Actor) (id : Nat) (status : String)
    (adminResponse : Option String) (fault : StoreFault) : State × Response :=
  match parseDecision status with
  | none => (s, ⟨400, false, some "Invalid status. Must be approved or rejected"⟩)
  | some d =>
    match Request.findById s.requests id with
    | none => (s, ⟨404, false, some "Request not found"⟩)
    | some request =>
      if request.status ≠ Status.pending then
        (s, ⟨400, false, some "Request has already been processed"⟩)
      else
        let request' : Request :=
          { request with
            status := d
            adminResponse := adminResponse.map jsTrim
            processedBy := some actor.id }
        match sideEffect s request' d fault with
        | none => (s, ⟨500, false, none⟩)
        | some s1 =>
          if fault = StoreFault.atSave then (s1, ⟨500, false, none⟩)
          else
            ({ s1 with requests := Request.save s1.requests request' },
             ⟨200, true, some ("Request " ++ status ++ " successfully")⟩)

/-- The controller `deleteRequest`.  `Request.findById` casts the route
parameter to an ObjectId; a malformed id makes it reject, which is caught and
answered with status 500. -/
def deleteRequest (s : State) (actor : Actor) (param : IdParam) : State × Response :=
  match param with
  | IdParam.malformed => (s, ⟨500, false, none⟩)
  | IdParam.oid id =>
    match Request.findById s.requests id with
    | none => (s, ⟨404, false, some "Request not found"⟩)
    | some request =>
      if request.requestedBy ≠ actor.id ∧ actor.role ≠ Role.main_admin then
        (s, ⟨403, false, some "Not authorized to delete this request"⟩)
      else if request.status ≠ Status.pending then
        (s, ⟨400, false, some "Cannot delete processed requests"⟩)
      else
        ({ s with requests := Request.deleteById s.requests id },
         ⟨200, true, some "Request deleted successfully"⟩)

/-! ## Runs of the system -/

/-- A call of one of the mutating controllers. -/
inductive Op where
  | register (name email password : String) (schemaOk : Bool)
  | updateUserRole (actor : Actor) (id : Nat) (role : String)
  | createMasjid (actor : Actor) (body : MasjidData)
  | updateMasjid (actor : Actor) (id : Nat) (body : MasjidData)
  | deleteMasjid (actor : Actor) (id : Nat)
  | createRequest (actor : Actor) (body : RequestBody)
  | processRequest (actor : Actor) (id : Nat) (status : String)
      (adminResponse : Option String) (fault : StoreFault)
  | deleteRequest (actor : Actor) (id : IdParam)
  deriving DecidableEq, Repr

/-- One call, as a step on the stores. -/
def step (s : State) : Op → State × Response
  | Op.register n e p ok => register s n e p ok
  | Op.updateUserRole a i r => updateUserRole s a i r
  | Op.createMasjid a b => createMasjid s a b
  | Op.updateMasjid a i b => updateMasjid s a i b
  | Op.deleteMasjid a i => deleteMasjid s a i
  | Op.createRequest a b => createRequest s a b
  | Op.processRequest a i st ar f => processRequest s a i st ar f
  | Op.deleteRequest a i => deleteRequest s a i

/-- The stores after a sequence of calls executed one at a time. -/
def run (s : State) (ops : List Op) : State :=
  ops.foldl (fun st op => (step st op).1) s

/-- The empty system. -/
def State.empty : State := ⟨[], [], [], 0⟩

/-! ## Concrete scenarios -/

/-- A `masjidData` with no field set. -/
def emptyData : MasjidData := ⟨none, none, none, none, none, none, none⟩

/-- A submitted `masjidData` with no field set. -/
def emptyInput : MasjidInput := ⟨none, none, none, none, none, none, none⟩

/-- The first registered account acting as caller. -/
def mainAdminActor : Actor := ⟨0, Role.main_admin⟩

/-- The body of an `admin_access` submission. -/
def adminAccessBody : RequestBody := ⟨"admin_access", none, emptyInput, none⟩

/-- The stores after the first registration and an `admin_access` submission
of that account. -/
def adminAccessSubmitted : State :=
  run State.empty [Op.register "Alice" "a@x.com" "pw" true,
    Op.createRequest mainAdminActor adminAccessBody]

/-- The stores after that submission has been approved. -/
def approvedState : State :=
  (processRequest adminAccessSubmitted mainAdminActor 1 "approved" none
    StoreFault.noFault).1

/-- The approved request of `approvedState`. -/
def approvedRequest : Request :=
  { _id := 1, type := ReqType.admin_access, requestedBy := 0, status := Status.approved,
    masjidId := none, masjidData := emptyData, reason := none, adminResponse := none,
    processedBy := some 0 }

/-- The second registered account, acting with the role `admin`. -/
def bobAdmin : Actor := ⟨1, Role.admin⟩

/-- The second registered account, acting with the role `user`. -/
def bobUser : Actor := ⟨1, Role.user⟩

/-- Five daily prayer times and no weekly one. -/
def dailyTimes : PrayerTimes :=
  ⟨some "05:00", some "12:30", some "15:45", some "18:10", some "19:30", none⟩

/-- The body of a direct `createMasjid` call. -/
def noorBody : MasjidData :=
  ⟨some "Al-Noor", some "1 Main Street", some 20, some 30, some dailyTimes, none, none⟩

/-- Alice (id 0) and Bob (id 1) register, Bob asks for admin access (request 2),
Alice approves it and creates the masjid with id 3. -/
def masjidOps : List Op :=
  [Op.register "Alice" "a@x.com" "pw" true,
   Op.register "Bob" "b@x.com" "pw" true,
   Op.createRequest bobUser adminAccessBody,
   Op.processRequest mainAdminActor 2 "approved" none StoreFault.noFault,
   Op.createMasjid mainAdminActor noorBody]

/-- The stores after `masjidOps`. -/
def masjidScenario : State := run State.empty masjidOps

/-- A snapshot that passes the masjid schema and whose name starts with a blank. -/
def paddedData : MasjidData :=
  ⟨some " Al-Huda", some "2 Side Street", some 21, some 39, some dailyTimes, none, none⟩

/-- The stores of `masjidScenario` after Bob has submitted `paddedData` as an
`add_masjid` request (id 4). -/
def paddedSubmitted : State :=
  (createRequest masjidScenario bobAdmin ⟨"add_masjid", none, paddedData.toInput, none⟩).1

/-- The masjid stored by `masjidScenario`. -/
def noorMasjid : Masjid :=
  { _id := 3, name := "Al-Noor", address := "1 Main Street",
    location := ⟨[some 30, some 20]⟩,
    prayerTimes := { dailyTimes with jummah := some "" },
    description := "", phoneNumber := "", addedBy := 0 }

/-- The approved request of Bob in `masjidScenario`. -/
def bobApprovedRequest : Request :=
  { _id := 2, type := ReqType.admin_access, requestedBy := 1, status := Status.approved,
    masjidId := none, masjidData := emptyData, reason := none, adminResponse := none,
    processedBy := some 0 }

/-- The body of an `edit_masjid` submission moving masjid 3 onto the equator. -/
def equatorEditBody : RequestBody :=
  ⟨"edit_masjid", some (IdParam.oid 3),
    { emptyInput with latitude := some (NumParam.num 0), longitude := some (NumParam.num 45) },
    none⟩

/-- The stores of `masjidScenario` after Bob has submitted `equatorEditBody`. -/
def equatorEditSubmitted : State :=
  (createRequest masjidScenario bobAdmin equatorEditBody).1

/-- The body of an `edit_masjid` submission renaming masjid 3. -/
def renameEditBody : RequestBody :=
  ⟨"edit_masjid", some (IdParam.oid 3), { emptyInput with name := some "Al-Noor Centre" },
    none⟩

/-- The stores of `masjidScenario` after Bob has submitted `renameEditBody`
(request 4) and the main admin has deleted masjid 3. -/
def orphanEditState : State :=
  run State.empty
    (masjidOps ++ [Op.createRequest bobAdmin renameEditBody,
      Op.deleteMasjid mainAdminActor 3])

/-- The first registration followed by an `add_masjid` submission whose
snapshot has no field set. -/
def emptyAddOps : List Op :=
  [Op.register "Alice" "a@x.com" "pw" true,
   Op.createRequest mainAdminActor ⟨"add_masjid", none, emptyInput, none⟩]

/-- The request stored by `emptyAddOps`. -/
def emptyAddRequest : Request :=
  { _id := 1, type := ReqType.add_masjid, requestedBy := 0, status := Status.pending,
    masjidId := none, masjidData := emptyData, reason := none, adminResponse := none,
    processedBy := none }

/-- The invariant of a stored request: a pending request has neither
`processedBy` nor `adminResponse`, a processed request has `processedBy`. -/
def ReqInv (r : Request) : Prop :=
  (r.status = Status.pending → r.processedBy = none ∧ r.adminResponse = none) ∧
  (r.status ≠ Status.pending → r.processedBy.isSome = true)

/-- Every stored request has an id below the id generator. -/
def Fresh (s : State) : Prop :=
  ∀ r ∈ s.requests, r._id < s.nextId

/-- Whether a call processes or deletes the request with id `rid`. -/
def touchesRequest (rid : Nat) : Op → Bool
  | Op.processRequest _ i _ _ _ => i == rid
  | Op.deleteRequest _ (IdParam.oid i) => i == rid
  | _ => false

/-- Whether a call is a `register` call. -/
def isRegister : Op → Bool
  | Op.register _ _ _ _ => true
  | _ => false

/-- Whether an account holds the role `main_admin`. -/
def isMainAdmin (u : User) : Bool :=
  u.role == Role.main_admin

/-- The shape of the user store under registrations: the first account holds
`main_admin` and every later account holds `user`. -/
def FirstIsMain (us : List User) : Prop :=
  (∀ u, us.head? = some u → u.role = Role.main_admin) ∧
  (∀ u ∈ us.tail, u.role = Role.user)

/-- Scenario A: two registrations, a refused third one with the email of the
first, and one whose record the user schema rejects. -/
def scenarioA : List Op :=
  [Op.register "Alice" "a@x.com" "pw" true,
   Op.register "Bob" "b@x.com" "pw" true,
   Op.register "Eve" "a@x.com" "pw" true,
   Op.register "Dan" "d@x.com" "" false]

/-- The account of Bob in `masjidScenario`. -/
def bobAccount : User := ⟨1, "Bob", "b@x.com", "pw", Role.admin⟩

/-- The account of Alice in `masjidScenario`. -/
def aliceAccount : User := ⟨0, "Alice", "a@x.com", "pw", Role.main_admin⟩

/-- The number of pending `admin_access` requests of requester `uid`. -/
def pendingAdminCount (rs : List Request) (uid : Nat) : Nat :=
  rs.countP (fun r => r.requestedBy == uid && r.type == ReqType.admin_access
    && r.status == Status.pending)


/-! ## Lemmas on the store primitives -/

theorem parseDecision_ne_pending {st : String} {d : Status}
    (h : parseDecision st = some d) : d ≠ Status.pending := by
  unfold parseDecision at h
  split_ifs at h <;> simp at h <;> subst h <;> decide

theorem Request.findById_id {rs : List Request} {i : Nat} {r : Request}
    (h : Request.findById rs i = some r) : r._id = i := by
  have := List.find?_some h
  simpa using this

theorem Request.findById_mem {rs : List Request} {i : Nat} {r : Request}
    (h : Request.findById rs i = some r) : r ∈ rs :=
  List.mem_of_find?_eq_some h

theorem Request.findById_save (rs : List Request) (r' : Request) (i : Nat) :
    Request.findById (Request.save rs r') i =
      (Request.findById rs i).map (fun x => if x._id = r'._id then r' else x) := by
  unfold Request.findById Request.save
  rw [List.find?_map]
  have hfun : ((fun r : Request => r._id == i) ∘ fun x => if x._id = r'._id then r' else x)
      = fun r : Request => r._id == i := by
    funext x
    by_cases hx : x._id = r'._id
    · simp [Function.comp, hx]
    · simp [Function.comp, hx]
  rw [hfun]

theorem Request.findById_save_ne (rs : List Request) (r' : Request) (i : Nat)
    (h : i ≠ r'._id) :
    Request.findById (Request.save rs r') i = Request.findById rs i := by
  rw [Request.findById_save]
  cases hr : Request.findById rs i with
  | none => rfl
  | some r =>
    have hid := Request.findById_id hr
    have hne : ¬ r._id = r'._id := fun e => h (hid ▸ e)
    simp [hne]

theorem Request.findById_save_none (rs : List Request) (r' : Request) (i : Nat)
    (h : Request.findById rs i = none) :
    Request.findById (Request.save rs r') i = none := by
  rw [Request.findById_save, h]
  rfl

theorem Request.findById_append_some {rs : List Request} {i : Nat} {r : Request}
    (l : List Request) (h : Request.findById rs i = some r) :
    Request.findById (rs ++ l) i = some r := by
  unfold Request.findById at *
  simp [List.find?_append, h]

theorem Request.findById_append_none {rs : List Request} {i : Nat}
    (l : List Request) (h : Request.findById rs i = none) :
    Request.findById (rs ++ l) i = Request.findById l i := by
  unfold Request.findById at *
  simp [List.find?_append, h]

theorem Request.findById_deleteById_ne (rs : List Request) {i j : Nat} (h : i ≠ j) :
    Request.findById (Request.deleteById rs j) i = Request.findById rs i := by
  unfold Request.findById Request.deleteById
  rw [List.find?_filter]
  congr 1
  funext a
  by_cases hi : a._id = i
  · have hj : ¬ i = j := h
    simp [hi, hj]
  · simp [hi]

theorem Request.findById_deleteById_self (rs : List Request) (i : Nat) :
    Request.findById (Request.deleteById rs i) i = none := by
  unfold Request.findById Request.deleteById
  simp [List.find?_eq_none]

theorem Masjid.create_frame {s s1 : State} {d : MasjidData} {loc : Location} {a : Nat}
    (h : Masjid.create s d loc a = some s1) :
    s1.requests = s.requests ∧ s1.users = s.users ∧ s.nextId ≤ s1.nextId := by
  unfold Masjid.create at h
  split_ifs at h
  simp at h
  subst h
  simp

theorem approveEffect_requests {s s1 : State} {r : Request}
    (h : approveEffect s r = some s1) :
    s1.requests = s.requests ∧ s.nextId ≤ s1.nextId := by
  unfold approveEffect at h
  split at h
  · simp at h; subst h; simp
  · have := Masjid.create_frame h
    exact ⟨this.1, this.2.2⟩
  · split at h
    · simp at h; subst h; simp
    · simp at h
  · split at h <;> (simp at h; subst h; simp)

theorem sideEffect_requests {s s1 : State} {r : Request} {d : Status} {f : StoreFault}
    (h : sideEffect s r d f = some s1) :
    s1.requests = s.requests ∧ s.nextId ≤ s1.nextId := by
  unfold sideEffect at h
  split_ifs at h
  · exact approveEffect_requests h
  · simp at h; subst h; simp

/-- The request store after `processRequest` is either untouched or the result
of saving the processed copy of the pending request that was found. -/
theorem processRequest_requests_cases (s : State) (actor : Actor) (id : Nat)
    (st : String) (ar : Option String) (f : StoreFault) :
    ((processRequest s actor id st ar f).1.requests = s.requests ∧
      (processRequest s actor id st ar f).2.status ≠ 200) ∨
    ∃ d r, parseDecision st = some d ∧ Request.findById s.requests id = some r ∧
      r.status = Status.pending ∧
      (processRequest s actor id st ar f).2.status = 200 ∧
      (processRequest s actor id st ar f).1.requests =
        Request.save s.requests
          { r with status := d, adminResponse := ar.map jsTrim, processedBy := some actor.id } := by
  unfold processRequest
  cases hd : parseDecision st with
  | none => simp
  | some d =>
    cases hr : Request.findById s.requests id with
    | none => simp
    | some r =>
      by_cases hp : r.status = Status.pending
      · simp only [hp, ne_eq, not_true_eq_false, if_false]
        cases he : sideEffect s
            { r with status := d, adminResponse := ar.map jsTrim, processedBy := some actor.id }
            d f with
        | none => simp
        | some s1 =>
          have hs1 := (sideEffect_requests he).1
          by_cases hf : f = StoreFault.atSave
          · simp [hf, hs1]
          · right
            refine ⟨d, r, rfl, rfl, hp, ?_, ?_⟩ <;> simp [hf, hs1]
      · simp [hp]

/-! ## How one call changes the request store -/

theorem register_requests (s : State) (n e p : String) (ok : Bool) :
    (register s n e p ok).1.requests = s.requests := by
  unfold register
  split
  · rfl
  · split_ifs <;> rfl

theorem updateUserRole_requests (s : State) (a : Actor) (i : Nat) (r : String) :
    (updateUserRole s a i r).1.requests = s.requests := by
  unfold updateUserRole
  split_ifs
  · rfl
  · split
    · rfl
    · split_ifs
      · rfl
      · split <;> rfl

theorem createMasjid_requests (s : State) (a : Actor) (b : MasjidData) :
    (createMasjid s a b).1.requests = s.requests := by
  unfold createMasjid
  split_ifs
  · rfl
  · rfl
  · split
    · rfl
    · next s1 h => exact (Masjid.create_frame h).1

theorem updateMasjid_requests (s : State) (a : Actor) (i : Nat) (b : MasjidData) :
    (updateMasjid s a i b).1.requests = s.requests := by
  unfold updateMasjid
  split
  · rfl
  · split_ifs
    · rfl
    · split <;> rfl
    · rfl

theorem deleteMasjid_requests (s : State) (a : Actor) (i : Nat) :
    (deleteMasjid s a i).1.requests = s.requests := by
  unfold deleteMasjid
  split
  · rfl
  · split_ifs <;> rfl

theorem pendingAdminCount_zero_of_find {rs : List Request} {uid : Nat}
    (h : Request.findPendingAdminAccess rs uid = none) : pendingAdminCount rs uid = 0 := by
  unfold Request.findPendingAdminAccess at h
  unfold pendingAdminCount
  rw [List.countP_eq_zero]
  exact List.find?_eq_none.mp h

/-- The request store after `createRequest`: untouched, or extended by one
pending request with a fresh id. -/
theorem createRequest_requests_cases (s : State) (a : Actor) (b : RequestBody) :
    (createRequest s a b).1.requests = s.requests ∨
    ∃ r, (createRequest s a b).1.requests = s.requests ++ [r] ∧
      r.status = Status.pending ∧ r.processedBy = none ∧ r.adminResponse = none ∧
      r._id = s.nextId ∧ (createRequest s a b).1.nextId = s.nextId + 1 ∧
      (r.type = ReqType.admin_access → pendingAdminCount s.requests r.requestedBy = 0) := by
  unfold createRequest
  cases ht : parseType b.type with
  | none => simp
  | some t =>
    by_cases hc : t = ReqType.admin_access ∧
        (Request.findPendingAdminAccess s.requests a.id).isSome
    · left
      simp [hc]
    · simp only [hc, if_false]
      cases hid : castId b.masjidId with
      | none => left; rfl
      | some mid =>
        cases hmd : castMasjidData b.masjidData with
        | none => left; rfl
        | some md =>
          right
          refine ⟨_, rfl, rfl, rfl, rfl, rfl, rfl, ?_⟩
          intro hty
          apply pendingAdminCount_zero_of_find
          simp only at hty
          simp only [not_and] at hc
          have := hc hty
          simpa using this

/-- The request store after `deleteRequest`: untouched, or without the pending
request that was found. -/
theorem deleteRequest_requests_cases (s : State) (a : Actor) (p : IdParam) :
    (deleteRequest s a p).1.requests = s.requests ∨
    ∃ i r, p = IdParam.oid i ∧ Request.findById s.requests i = some r ∧
      r.status = Status.pending ∧
      (deleteRequest s a p).1.requests = Request.deleteById s.requests i := by
  unfold deleteRequest
  cases p with
  | malformed => left; rfl
  | oid i =>
    dsimp only
    cases hr : Request.findById s.requests i with
    | none => simp
    | some r =>
      simp only
      split_ifs with h1 h2
      · simp
      · simp
      · right
        exact ⟨i, r, rfl, hr, by simpa using h2, rfl⟩

/-- Every call changes the request store in one of four ways: not at all, by
appending a fresh pending request, by saving the processed copy of a pending
request, or by dropping a pending request. -/
theorem step_requests (s : State) (op : Op) :
    (step s op).1.requests = s.requests ∨
    (∃ r, (step s op).1.requests = s.requests ++ [r] ∧
      r.status = Status.pending ∧ r.processedBy = none ∧ r.adminResponse = none ∧
      r._id = s.nextId ∧ (step s op).1.nextId = s.nextId + 1 ∧
      (r.type = ReqType.admin_access → pendingAdminCount s.requests r.requestedBy = 0)) ∨
    (∃ r r', Request.findById s.requests r._id = some r ∧ r.status = Status.pending ∧
      r'._id = r._id ∧ r'.status ≠ Status.pending ∧ r'.processedBy.isSome = true ∧
      (step s op).1.requests = Request.save s.requests r') ∨
    (∃ i r, Request.findById s.requests i = some r ∧ r.status = Status.pending ∧
      (step s op).1.requests = Request.deleteById s.requests i) := by
  cases op with
  | register n e p ok => exact Or.inl (register_requests s n e p ok)
  | updateUserRole a i r => exact Or.inl (updateUserRole_requests s a i r)
  | createMasjid a b => exact Or.inl (createMasjid_requests s a b)
  | updateMasjid a i b => exact Or.inl (updateMasjid_requests s a i b)
  | deleteMasjid a i => exact Or.inl (deleteMasjid_requests s a i)
  | createRequest a b =>
    rcases createRequest_requests_cases s a b with h | h
    · exact Or.inl h
    · exact Or.inr (Or.inl h)
  | processRequest a i st ar f =>
    rcases processRequest_requests_cases s a i st ar f with h | ⟨d, r, hd, hr, hp, _, hs⟩
    · exact Or.inl h.1
    · refine Or.inr (Or.inr (Or.inl ⟨r,
        { r with status := d, adminResponse := ar.map jsTrim, processedBy := some a.id },
        ?_, hp, rfl, ?_, rfl, hs⟩))
      · rw [Request.findById_id hr]; exact hr
      · exact parseDecision_ne_pending hd
  | deleteRequest a p =>
    rcases deleteRequest_requests_cases s a p with h | ⟨i, r, _, h⟩
    · exact Or.inl h
    · exact Or.inr (Or.inr (Or.inr ⟨i, r, h⟩))

/-! ## C1: the role `main_admin` -/

theorem User.findById_roleUpdate (us : List User) (j : Nat) (role : Role) (i : Nat) :
    User.findById (User.findByIdAndUpdateRole us j role) i =
      (User.findById us i).map (fun u => if u._id = j then { u with role := role } else u) := by
  unfold User.findById User.findByIdAndUpdateRole
  rw [List.find?_map]
  have hfun : ((fun u : User => u._id == i) ∘
      fun u => if u._id = j then { u with role := role } else u)
      = fun u : User => u._id == i := by
    funext x
    by_cases hx : x._id = j
    · simp [Function.comp, hx]
    · simp [Function.comp, hx]
  rw [hfun]

theorem User.findById_roleUpdate_other (us : List User) {i j : Nat} (role : Role) (u : User)
    (h : j ≠ i) (hu : User.findById us i = some u) :
    User.findById (User.findByIdAndUpdateRole us j role) i = some u := by
  rw [User.findById_roleUpdate, hu]
  have hid : u._id = i := by
    have := List.find?_some hu
    simpa using this
  have hne : ¬ u._id = j := fun e => h (e ▸ hid)
  simp [hne]

theorem approveEffect_users (s s1 : State) (r : Request)
    (h : approveEffect s r = some s1) :
    s1.users = s.users ∨
    (r.type = ReqType.admin_access ∧
      s1.users = User.findByIdAndUpdateRole s.users r.requestedBy Role.admin) := by
  unfold approveEffect at h
  split at h
  · next ht =>
    simp at h; subst h
    exact Or.inr ⟨ht, rfl⟩
  · exact Or.inl (Masjid.create_frame h).2.1
  · split at h
    · simp at h; subst h; exact Or.inl rfl
    · simp at h
  · split at h <;> (simp at h; subst h; exact Or.inl rfl)

/-- The user store after `processRequest` is untouched unless the request that
was found is an `admin_access` request, whose requester is then made `admin`. -/
theorem processRequest_users_cases (s : State) (actor : Actor) (id : Nat)
    (st : String) (ar : Option String) (f : StoreFault) :
    (processRequest s actor id st ar f).1.users = s.users ∨
    ∃ r, Request.findById s.requests id = some r ∧ r.type = ReqType.admin_access ∧
      (processRequest s actor id st ar f).1.users =
        User.findByIdAndUpdateRole s.users r.requestedBy Role.admin := by
  unfold processRequest
  cases hd : parseDecision st with
  | none => simp
  | some d =>
    cases hr : Request.findById s.requests id with
    | none => simp
    | some r =>
      by_cases hp : r.status = Status.pending
      · simp only [hp, ne_eq, not_true_eq_false, if_false]
        cases he : sideEffect s
            { r with status := d, adminResponse := ar.map jsTrim, processedBy := some actor.id }
            d f with
        | none => simp
        | some s1 =>
          have hu : s1.users = s.users ∨
              (r.type = ReqType.admin_access ∧
                s1.users = User.findByIdAndUpdateRole s.users r.requestedBy Role.admin) := by
            unfold sideEffect at he
            split_ifs at he
            · exact approveEffect_users s s1 _ he
            · simp at he; subst he; exact Or.inl rfl
          by_cases hf : f = StoreFault.atSave
          · rcases hu with hu | ⟨ht, hu⟩
            · left; simp [hf, hu]
            · right; exact ⟨r, rfl, ht, by simp [hf, hu]⟩
          · rcases hu with hu | ⟨ht, hu⟩
            · left; simp [hf, hu]
            · right; exact ⟨r, rfl, ht, by simp [hf, hu]⟩
      · simp [hp]

/-- Every call other than the processing of an `admin_access` request of the
account itself leaves an account that holds `main_admin` stored unchanged. -/
theorem step_keeps_main_admin (s : State) (op : Op) (i : Nat) (u : User)
    (hu : User.findById s.users i = some u) (hrole : u.role = Role.main_admin)
    (hop : ∀ a j st ar f r, op = Op.processRequest a j st ar f →
      Request.findById s.requests j = some r →
      ¬ (r.type = ReqType.admin_access ∧ r.requestedBy = i)) :
    User.findById (step s op).1.users i = some u := by
  cases op with
  | register n e p ok =>
    show User.findById (register s n e p ok).1.users i = some u
    unfold register
    split
    · exact hu
    · split_ifs
      · unfold User.findById at *
        simp [List.find?_append, hu]
      · exact hu
  | updateUserRole a j ro =>
    show User.findById (updateUserRole s a j ro).1.users i = some u
    unfold updateUserRole
    split_ifs
    · exact hu
    · split
      · exact hu
      · next t ht =>
        split_ifs with h1
        · exact hu
        · split
          · exact hu
          · have hji : j ≠ i := by
              intro e
              rw [e, hu] at ht
              cases ht
              exact h1 hrole
            exact User.findById_roleUpdate_other _ _ u hji hu
  | createMasjid a b =>
    show User.findById (createMasjid s a b).1.users i = some u
    unfold createMasjid
    split_ifs
    · exact hu
    · exact hu
    · split
      · exact hu
      · next s1 h => rw [(Masjid.create_frame h).2.1]; exact hu
  | updateMasjid a j b =>
    show User.findById (updateMasjid s a j b).1.users i = some u
    unfold updateMasjid
    repeat' split
    all_goals exact hu
  | deleteMasjid a j =>
    show User.findById (deleteMasjid s a j).1.users i = some u
    unfold deleteMasjid
    split
    · exact hu
    · split_ifs <;> exact hu
  | createRequest a b =>
    show User.findById (createRequest s a b).1.users i = some u
    unfold createRequest
    repeat' split
    all_goals exact hu
  | processRequest a j st ar f =>
    show User.findById (processRequest s a j st ar f).1.users i = some u
    rcases processRequest_users_cases s a j st ar f with e | ⟨r, hr, ht, e⟩
    · rw [e]; exact hu
    · rw [e]
      have hne : r.requestedBy ≠ i := fun e' => hop a j st ar f r rfl hr ⟨ht, e'⟩
      exact User.findById_roleUpdate_other _ _ u hne hu
  | deleteRequest a j =>
    show User.findById (deleteRequest s a j).1.users i = some u
    unfold deleteRequest
    repeat' split
    all_goals exact hu

/-- C1 (the code departs from the claim): after the first registration, the
main admin (id 0) submits an `admin_access` request (id 1) and approves it; all
three calls succeed, the account holds `main_admin` before the approval and
`admin` after it, because the `admin_access` branch of `processRequest` sets the
role of the requester without the guard that `updateUserRole` has. -/
theorem processRequest_demotes_main_admin :
    (step State.empty (Op.register "Alice" "a@x.com" "pw" true)).2.status = 201 ∧
    (step (run State.empty [Op.register "Alice" "a@x.com" "pw" true])
      (Op.createRequest mainAdminActor adminAccessBody)).2.status = 201 ∧
    (User.findById adminAccessSubmitted.users 0).map (fun u => u.role)
      = some Role.main_admin ∧
    (processRequest adminAccessSubmitted mainAdminActor 1 "approved" none
      StoreFault.noFault).2.status = 200 ∧
    (User.findById (processRequest adminAccessSubmitted mainAdminActor 1 "approved" none
      StoreFault.noFault).1.users 0).map (fun u => u.role) = some Role.admin := by
  decide

/-! ## C2: the status of a request -/

theorem step_keeps_processed (s : State) (op : Op) (i : Nat) (r : Request)
    (hr : Request.findById s.requests i = some r) (hp : r.status ≠ Status.pending) :
    Request.findById (step s op).1.requests i = some r := by
  rcases step_requests s op with h | ⟨x, h, _⟩ | ⟨r0, r0', h0, hp0, hid, _, _, h⟩ |
      ⟨j, r0, h0, hp0, h⟩
  · rw [h]; exact hr
  · rw [h]; exact Request.findById_append_some _ hr
  · rw [h]
    by_cases hi : i = r0'._id
    · rw [hi, hid, h0] at hr
      cases hr
      exact absurd hp0 hp
    · rw [Request.findById_save_ne _ _ _ hi]; exact hr
  · rw [h]
    by_cases hi : i = j
    · rw [hi, h0] at hr
      cases hr
      exact absurd hp0 hp
    · rw [Request.findById_deleteById_ne _ hi]; exact hr

theorem step_new_is_pending (s : State) (op : Op) (i : Nat) (r' : Request)
    (hn : Request.findById s.requests i = none)
    (hr : Request.findById (step s op).1.requests i = some r') :
    r'.status = Status.pending := by
  rcases step_requests s op with h | ⟨x, h, hx, _⟩ | ⟨r0, r0', _, _, _, _, _, h⟩ |
      ⟨j, r0, _, _, h⟩
  · rw [h, hn] at hr; cases hr
  · rw [h, Request.findById_append_none _ hn] at hr
    have hmem := Request.findById_mem hr
    simp at hmem
    rw [hmem]; exact hx
  · rw [h, Request.findById_save_none _ _ _ hn] at hr; cases hr
  · rw [h] at hr
    by_cases hi : i = j
    · rw [hi, Request.findById_deleteById_self] at hr; cases hr
    · rw [Request.findById_deleteById_ne _ hi, hn] at hr; cases hr

/-- C2: under every call (in particular `createRequest`, `processRequest` and
`deleteRequest`) the stored status of the request with id `i` moves only along
`pending → approved` or `pending → rejected`: a request that is stored before
and after has the same status or was pending and is now approved or rejected;
a request that is approved or rejected is still stored, unchanged, after the
call; and a request that appears with the call is pending. -/
theorem request_status_transitions (s : State) (op : Op) (i : Nat) :
    (∀ r r', Request.findById s.requests i = some r →
      Request.findById (step s op).1.requests i = some r' →
      r'.status = r.status ∨
        (r.status = Status.pending ∧
          (r'.status = Status.approved ∨ r'.status = Status.rejected))) ∧
    (∀ r, Request.findById s.requests i = some r → r.status ≠ Status.pending →
      Request.findById (step s op).1.requests i = some r) ∧
    (∀ r', Request.findById s.requests i = none →
      Request.findById (step s op).1.requests i = some r' →
      r'.status = Status.pending) := by
  refine ⟨?_, fun r hr hp => step_keeps_processed s op i r hr hp,
    fun r' hn hr => step_new_is_pending s op i r' hn hr⟩
  intro r r' hr hr'
  by_cases hp : r.status = Status.pending
  · cases hs : r'.status with
    | pending => left; rw [hp]
    | approved => right; exact ⟨hp, Or.inl rfl⟩
    | rejected => right; exact ⟨hp, Or.inr rfl⟩
  · have := step_keeps_processed s op i r hr hp
    rw [this] at hr'
    cases hr'
    left; rfl

/-- Witness for C2: request 1 of `approvedState` is approved and stays so when
its requester tries to delete it and when it is processed again; request 2 does
not exist before a `createRequest` and is pending after it. -/
theorem request_status_transitions_witness :
    (Request.findById (step approvedState
        (Op.deleteRequest mainAdminActor (IdParam.oid 1))).1.requests 1
        = some approvedRequest) ∧
    (Request.findById (step approvedState
        (Op.processRequest mainAdminActor 1 "rejected" none StoreFault.noFault)).1.requests 1
        = some approvedRequest) ∧
    (∀ r', Request.findById (step approvedState
        (Op.createRequest mainAdminActor adminAccessBody)).1.requests 2 = some r' →
      r'.status = Status.pending) :=
  ⟨(request_status_transitions approvedState
      (Op.deleteRequest mainAdminActor (IdParam.oid 1)) 1).2.1
      approvedRequest (by decide) (by decide),
   (request_status_transitions approvedState
      (Op.processRequest mainAdminActor 1 "rejected" none StoreFault.noFault) 1).2.1
      approvedRequest (by decide) (by decide),
   fun r' => (request_status_transitions approvedState
      (Op.createRequest mainAdminActor adminAccessBody) 2).2.2 r' (by decide)⟩

/-! ## C3: processing a processed request -/

/-- C3: for a stored request whose status is not pending and a decision among
`approved` and `rejected`, `processRequest` answers 400 with the message
`Request has already been processed` and returns the stores unchanged, for
every caller, response text and store fault. -/
theorem processRequest_conflict (s : State) (actor : Actor) (i : Nat) (st : String)
    (ar : Option String) (f : StoreFault) (r : Request)
    (hd : st = "approved" ∨ st = "rejected")
    (hr : Request.findById s.requests i = some r)
    (hp : r.status ≠ Status.pending) :
    processRequest s actor i st ar f =
      (s, ⟨400, false, some "Request has already been processed"⟩) := by
  unfold processRequest
  rcases hd with hd | hd <;> subst hd <;> simp [parseDecision, hr, hp]

/-- Witness for C3: processing the approved request 1 of `approvedState` again. -/
theorem processRequest_conflict_witness :
    processRequest approvedState mainAdminActor 1 "approved" none StoreFault.noFault =
      (approvedState, ⟨400, false, some "Request has already been processed"⟩) :=
  processRequest_conflict approvedState mainAdminActor 1 "approved" none
    StoreFault.noFault approvedRequest (Or.inl rfl) (by decide) (by decide)

/-! ## C4: one pending `admin_access` request per requester -/

theorem pendingAdminCount_save_le (rs : List Request) (r' : Request) (u : Nat)
    (h : r'.status ≠ Status.pending) :
    pendingAdminCount (Request.save rs r') u ≤ pendingAdminCount rs u := by
  unfold pendingAdminCount Request.save
  rw [List.countP_map]
  apply List.countP_mono_left
  intro x _ hx
  by_cases hid : x._id = r'._id
  · simp [Function.comp, hid, h] at hx
  · simpa [Function.comp, hid] using hx

theorem pendingAdminCount_delete_le (rs : List Request) (i u : Nat) :
    pendingAdminCount (Request.deleteById rs i) u ≤ pendingAdminCount rs u := by
  unfold pendingAdminCount Request.deleteById
  exact List.Sublist.countP_le _ (List.filter_sublist rs)

theorem pendingAdminCount_step (s : State) (op : Op)
    (h : ∀ u, pendingAdminCount s.requests u ≤ 1) (u : Nat) :
    pendingAdminCount (step s op).1.requests u ≤ 1 := by
  rcases step_requests s op with e | ⟨r, e, hp, _, _, _, _, hz⟩ |
      ⟨r0, r0', _, _, _, hnp, _, e⟩ | ⟨j, r0, _, _, e⟩
  · rw [e]; exact h u
  · rw [e]
    unfold pendingAdminCount at *
    rw [List.countP_append]
    by_cases hm : (r.requestedBy == u && r.type == ReqType.admin_access
        && r.status == Status.pending) = true
    · have hu : r.requestedBy = u := by
        simp at hm; exact hm.1.1
      have ht : r.type = ReqType.admin_access := by
        simp at hm; exact hm.1.2
      have := hz ht
      rw [hu] at this
      rw [this]
      exact (Nat.zero_add _).le.trans (List.countP_le_length _)
    · have : List.countP (fun r => r.requestedBy == u && r.type == ReqType.admin_access
          && r.status == Status.pending) [r] = 0 := by
        rw [List.countP_eq_zero]
        intro a ha
        simp at ha
        rw [ha]; exact hm
      rw [this]
      exact h u
  · rw [e]; exact (pendingAdminCount_save_le _ _ u hnp).trans (h u)
  · rw [e]; exact (pendingAdminCount_delete_le _ _ u).trans (h u)

theorem pendingAdminCount_run (ops : List Op) (s : State)
    (h : ∀ u, pendingAdminCount s.requests u ≤ 1) (u : Nat) :
    pendingAdminCount (run s ops).requests u ≤ 1 := by
  induction ops generalizing s with
  | nil => exact h u
  | cons op ops ih =>
    exact ih (step s op).1 (fun v => pendingAdminCount_step s op h v)

/-- C4: in every state reached from stores with an empty request store by
calls executed one at a time, each requester has at most one pending
`admin_access` request; and `createRequest` with type `admin_access` answers
400 and returns the stores unchanged when the caller already has one. -/
theorem pending_admin_access_unique :
    (∀ (s0 : State) (ops : List Op) (u : Nat), s0.requests = [] →
      pendingAdminCount (run s0 ops).requests u ≤ 1) ∧
    (∀ (s : State) (a : Actor) (b : RequestBody) (r : Request),
      b.type = "admin_access" → r ∈ s.requests → r.requestedBy = a.id →
      r.type = ReqType.admin_access → r.status = Status.pending →
      createRequest s a b =
        (s, ⟨400, false, some "You already have a pending admin access request"⟩)) := by
  constructor
  · intro s0 ops u h0
    apply pendingAdminCount_run
    intro v
    rw [h0]
    exact Nat.zero_le 1
  · intro s a b r hb hmem hby hty hst
    have hfind : (Request.findPendingAdminAccess s.requests a.id).isSome = true := by
      unfold Request.findPendingAdminAccess
      rw [List.find?_isSome]
      exact ⟨r, hmem, by simp [hby, hty, hst]⟩
    unfold createRequest
    simp [hb, parseType, hfind]

/-- Witness for C4: a run with two `admin_access` submissions of the same
account, and the second submission answered with 400. -/
theorem pending_admin_access_unique_witness :
    pendingAdminCount (run State.empty [Op.register "Alice" "a@x.com" "pw" true,
      Op.createRequest mainAdminActor adminAccessBody,
      Op.createRequest mainAdminActor adminAccessBody]).requests 0 ≤ 1 ∧
    createRequest adminAccessSubmitted mainAdminActor adminAccessBody =
      (adminAccessSubmitted,
        ⟨400, false, some "You already have a pending admin access request"⟩) :=
  ⟨pending_admin_access_unique.1 State.empty _ 0 rfl,
   pending_admin_access_unique.2 adminAccessSubmitted mainAdminActor adminAccessBody
     { approvedRequest with status := Status.pending, processedBy := none }
     rfl (by decide) rfl rfl rfl⟩

/-! ## C5: `processedBy` and the status -/

theorem reqInv_step (s : State) (op : Op)
    (h : ∀ r ∈ s.requests, ReqInv r) : ∀ r ∈ (step s op).1.requests, ReqInv r := by
  rcases step_requests s op with e | ⟨x, e, hp, hpb, har, _⟩ |
      ⟨r0, r0', _, _, _, hnp, hpb, e⟩ | ⟨j, r0, _, _, e⟩
  · rw [e]; exact h
  · rw [e]
    intro r hr
    rw [List.mem_append] at hr
    rcases hr with hr | hr
    · exact h r hr
    · simp at hr
      subst hr
      exact ⟨fun _ => ⟨hpb, har⟩, fun hn => absurd hp hn⟩
  · rw [e]
    intro r hr
    unfold Request.save at hr
    rw [List.mem_map] at hr
    obtain ⟨x, hx, hxr⟩ := hr
    split_ifs at hxr
    · subst hxr
      exact ⟨fun hp => absurd hp hnp, fun _ => hpb⟩
    · subst hxr
      exact h x hx
  · rw [e]
    intro r hr
    unfold Request.deleteById at hr
    exact h r (List.mem_filter.mp hr).1

theorem reqInv_run (ops : List Op) (s : State)
    (h : ∀ r ∈ s.requests, ReqInv r) : ∀ r ∈ (run s ops).requests, ReqInv r := by
  induction ops generalizing s with
  | nil => exact h
  | cons op ops ih => exact ih (step s op).1 (reqInv_step s op h)

theorem reqInv_of_empty (s0 : State) (ops : List Op) (h0 : s0.requests = []) :
    ∀ r ∈ (run s0 ops).requests, ReqInv r := by
  apply reqInv_run
  intro r hr
  rw [h0] at hr
  cases hr

/-- C5: in every state reached from stores with an empty request store by
calls executed one at a time, a stored request has `processedBy` set if and
only if its status is not pending; and a successful `processRequest` leaves the
request stored with `processedBy` equal to the id of the caller. -/
theorem processedBy_iff_not_pending :
    (∀ (s0 : State) (ops : List Op) (r : Request), s0.requests = [] →
      r ∈ (run s0 ops).requests →
      (r.processedBy.isSome = true ↔ r.status ≠ Status.pending)) ∧
    (∀ (s : State) (a : Actor) (i : Nat) (st : String) (ar : Option String)
      (f : StoreFault), (processRequest s a i st ar f).2.status = 200 →
      ∃ r', Request.findById (processRequest s a i st ar f).1.requests i = some r' ∧
        r'.processedBy = some a.id) := by
  constructor
  · intro s0 ops r h0 hr
    have hinv := reqInv_of_empty s0 ops h0 r hr
    constructor
    · intro hs hp
      rw [(hinv.1 hp).1] at hs
      cases hs
    · exact hinv.2
  · intro s a i st ar f hok
    rcases processRequest_requests_cases s a i st ar f with h | ⟨d, r, _, hr, _, _, hs⟩
    · exact absurd hok h.2
    · refine ⟨{ r with status := d, adminResponse := ar.map jsTrim,
                       processedBy := some a.id }, ?_, rfl⟩
      rw [hs, Request.findById_save, hr]
      simp

/-- Witness for C5: the approved request of `approvedState` carries the id of
the approver, and the approval that produced it set `processedBy` to the caller. -/
theorem processedBy_iff_not_pending_witness :
    (approvedRequest.processedBy.isSome = true ↔ approvedRequest.status ≠ Status.pending) ∧
    (∃ r', Request.findById (processRequest adminAccessSubmitted mainAdminActor 1
        "approved" none StoreFault.noFault).1.requests 1 = some r' ∧
      r'.processedBy = some mainAdminActor.id) :=
  ⟨processedBy_iff_not_pending.1 State.empty
      [Op.register "Alice" "a@x.com" "pw" true,
       Op.createRequest mainAdminActor adminAccessBody,
       Op.processRequest mainAdminActor 1 "approved" none StoreFault.noFault]
      approvedRequest rfl (by decide),
   processedBy_iff_not_pending.2 adminAccessSubmitted mainAdminActor 1 "approved" none
      StoreFault.noFault (by decide)⟩

/-! ## C10: a failing side effect -/

theorem sideEffect_processed_copy (s : State) (r : Request) (d st : Status)
    (ar : Option String) (pb : Option Nat) (f : StoreFault) :
    sideEffect s { r with status := st, adminResponse := ar, processedBy := pb } d f
      = sideEffect s r d f := by
  unfold sideEffect approveEffect
  rfl

theorem Masjid.findById_none_ne {ms : List Masjid} {mid : Nat}
    (h : Masjid.findById ms mid = none) : ∀ m ∈ ms, ¬ m._id = mid := by
  unfold Masjid.findById at h
  rw [List.find?_eq_none] at h
  intro m hm
  simpa using h m hm

theorem Masjid.findByIdAndUpdate_no_match (ms : List Masjid) (id : Option Nat)
    (d : MasjidData) (loc : Option Location)
    (h : ∀ mid, id = some mid → Masjid.findById ms mid = none) :
    Masjid.findByIdAndUpdate ms id d loc = some ms := by
  have hne : ∀ m ∈ ms, ¬ some m._id = id := by
    intro m hm e
    exact Masjid.findById_none_ne (h m._id e.symm) m hm rfl
  have hany : ms.any (fun m => some m._id == id) = false := by
    rw [List.any_eq_false]
    intro m hm
    simpa using hne m hm
  unfold Masjid.findByIdAndUpdate
  rw [hany]
  simp only [Bool.false_and, Bool.false_eq_true, if_false, Option.some.injEq]
  calc ms.map (fun m => if some m._id = id then Masjid.applyUpdate m d loc else m)
      = ms.map (fun m => m) := by
        apply List.map_congr_left
        intro m hm
        simp [hne m hm]
    _ = ms := List.map_id' ms

theorem Masjid.deleteById_no_match (ms : List Masjid) (mid : Nat)
    (h : Masjid.findById ms mid = none) : Masjid.deleteById ms mid = ms := by
  unfold Masjid.deleteById
  rw [List.filter_eq_self]
  intro m hm
  simpa using Masjid.findById_none_ne h m hm

/-- An `edit_masjid` or `delete_masjid` approval whose `masjidId` matches no
masjid does not throw and changes nothing. -/
theorem approveEffect_no_match (s : State) (r : Request)
    (ht : r.type = ReqType.edit_masjid ∨ r.type = ReqType.delete_masjid)
    (h : ∀ mid, r.masjidId = some mid → Masjid.findById s.masjids mid = none) :
    approveEffect s r = some s := by
  unfold approveEffect
  rcases ht with ht | ht
  · simp only [ht]
    rw [Masjid.findByIdAndUpdate_no_match _ _ _ _ h]
  · simp only [ht]
    cases hid : r.masjidId with
    | none => rfl
    | some mid =>
      simp only
      rw [Masjid.deleteById_no_match _ _ (h mid hid)]

/-- C10 (the claim fails): Bob submits an `edit_masjid` request for masjid 3
(request 4) and the main admin deletes that masjid; the approval of the request
then updates no masjid, and yet it is answered 200 and the request is stored as
approved. -/
theorem edit_of_deleted_masjid_is_approved :
    Masjid.findById orphanEditState.masjids 3 = none ∧
    (Request.findById orphanEditState.requests 4).map
        (fun r => (r.type, r.status, r.masjidId))
      = some (ReqType.edit_masjid, Status.pending, some 3) ∧
    (processRequest orphanEditState mainAdminActor 4 "approved" none
      StoreFault.noFault).2.status = 200 ∧
    (processRequest orphanEditState mainAdminActor 4 "approved" none
      StoreFault.noFault).1.masjids = orphanEditState.masjids ∧
    (Request.findById (processRequest orphanEditState mainAdminActor 4 "approved" none
      StoreFault.noFault).1.requests 4).map (fun r => (r.status, r.processedBy))
      = some (Status.approved, some 0) := by
  decide

/-- C10 (amended): in a state reached from stores with an empty request store,
for a pending request with id `i` and decision `approved`: when the store call
of the side effect rejects (an injected rejection of the call, a masjid built
from the snapshot that the schema or the index on `location` does not accept,
or new coordinates of an edited masjid that the index does not accept),
`processRequest` answers 500, returns the stores unchanged, and the stored
request is still pending with no `adminResponse` and no `processedBy`; when the
call does not reject and the save goes through, the answer is 200 and the
request is stored as approved with the caller as `processedBy`; and an
`edit_masjid` or `delete_masjid` side effect whose `masjidId` matches no masjid
does not reject: it changes nothing and counts as a success. -/
theorem processRequest_failed_side_effect (s0 : State) (ops : List Op) (actor : Actor)
    (i : Nat) (ar : Option String) (f : StoreFault) (r : Request)
    (h0 : s0.requests = [])
    (hr : Request.findById (run s0 ops).requests i = some r)
    (hp : r.status = Status.pending) :
    (sideEffect (run s0 ops) r Status.approved f = none →
      processRequest (run s0 ops) actor i "approved" ar f
        = (run s0 ops, ⟨500, false, none⟩) ∧
      Request.findById (processRequest (run s0 ops) actor i "approved" ar f).1.requests i
        = some r ∧
      r.status = Status.pending ∧ r.adminResponse = none ∧ r.processedBy = none) ∧
    (∀ s1, sideEffect (run s0 ops) r Status.approved f = some s1 →
      f ≠ StoreFault.atSave →
      (processRequest (run s0 ops) actor i "approved" ar f).2.status = 200 ∧
      (processRequest (run s0 ops) actor i "approved" ar f).1.users = s1.users ∧
      (processRequest (run s0 ops) actor i "approved" ar f).1.masjids = s1.masjids ∧
      Request.findById (processRequest (run s0 ops) actor i "approved" ar f).1.requests i
        = some { r with status := Status.approved, adminResponse := ar.map jsTrim,
                        processedBy := some actor.id }) ∧
    ((r.type = ReqType.edit_masjid ∨ r.type = ReqType.delete_masjid) →
      (∀ mid, r.masjidId = some mid →
        Masjid.findById (run s0 ops).masjids mid = none) →
      sideEffect (run s0 ops) r Status.approved StoreFault.noFault
        = some (run s0 ops)) := by
  have hinv := reqInv_of_empty s0 ops h0 r (Request.findById_mem hr)
  refine ⟨?_, ?_, ?_⟩
  · intro hfail
    have hres : processRequest (run s0 ops) actor i "approved" ar f
        = (run s0 ops, ⟨500, false, none⟩) := by
      unfold processRequest
      simp [parseDecision, hr, hp, sideEffect_processed_copy, hfail]
    refine ⟨hres, ?_, hp, (hinv.1 hp).2, (hinv.1 hp).1⟩
    rw [hres]
    exact hr
  · intro s1 hs1 hf
    have hreq := (sideEffect_requests hs1).1
    obtain ⟨rs', hrs'⟩ : ∃ rs', rs' = Request.save s1.requests
        { r with status := Status.approved, adminResponse := ar.map jsTrim,
                 processedBy := some actor.id } := ⟨_, rfl⟩
    have hres : processRequest (run s0 ops) actor i "approved" ar f
        = ({ s1 with requests := rs' },
           ⟨200, true, some "Request approved successfully"⟩) := by
      unfold processRequest
      simp [parseDecision, hr, hp, sideEffect_processed_copy, hs1, hf, hrs']
    rw [hres]
    refine ⟨rfl, rfl, rfl, ?_⟩
    show Request.findById rs' i = _
    rw [hrs', hreq, Request.findById_save, hr]
    simp
  · intro ht hnone
    unfold sideEffect
    simp only [if_true]
    rw [if_neg (by decide)]
    exact approveEffect_no_match _ r ht hnone

/-- Witness for C10 (amended): an `add_masjid` request with an empty snapshot
cannot be turned into a masjid; its approval answers 500 and the request stays
pending. -/
theorem processRequest_failed_side_effect_witness :
    processRequest (run State.empty emptyAddOps) mainAdminActor 1 "approved" none
        StoreFault.noFault
      = (run State.empty emptyAddOps, ⟨500, false, none⟩) ∧
    Request.findById (processRequest (run State.empty emptyAddOps) mainAdminActor 1
        "approved" none StoreFault.noFault).1.requests 1 = some emptyAddRequest ∧
    emptyAddRequest.status = Status.pending ∧ emptyAddRequest.adminResponse = none ∧
    emptyAddRequest.processedBy = none :=
  (processRequest_failed_side_effect State.empty emptyAddOps mainAdminActor 1 none
    StoreFault.noFault emptyAddRequest rfl (by decide) rfl).1 (by decide)

/-! ## C6: who may delete a masjid -/

theorem Masjid.findById_deleted_none (ms : List Masjid) (i : Nat) :
    Masjid.findById (Masjid.deleteById ms i) i = none := by
  unfold Masjid.findById Masjid.deleteById
  simp [List.find?_eq_none]

/-- C6 (the claim fails): Bob (id 1) has been made `admin` by an approved
`admin_access` request and masjid 3 exists; his `deleteMasjid` call passes
`authorize('admin', 'main_admin')` and is answered 403 by the controller, and
the masjid is still stored. -/
theorem deleteMasjid_admin_forbidden :
    (User.findById masjidScenario.users 1).map (fun u => u.role) = some Role.admin ∧
    (Masjid.findById masjidScenario.masjids 3).isSome = true ∧
    authorize [Role.admin, Role.main_admin] bobAdmin = true ∧
    routeDeleteMasjid masjidScenario bobAdmin 3 =
      (masjidScenario, ⟨403, false, some "Only main admin can delete masjids"⟩) ∧
    deleteMasjid masjidScenario bobAdmin 3 =
      (masjidScenario, ⟨403, false, some "Only main admin can delete masjids"⟩) := by
  decide

/-- C6 (amended): for an existing masjid id, `deleteMasjid` called by a
`main_admin` answers 200 and removes the masjid, with no approval step; called
by a caller of any other role (`admin` or `user`) it answers 403 and returns
the stores unchanged; and a `user` is answered 403 on the route as well. -/
theorem deleteMasjid_main_admin_only (s : State) (actor : Actor) (id : Nat) (m : Masjid)
    (hm : Masjid.findById s.masjids id = some m) :
    (actor.role = Role.main_admin →
      deleteMasjid s actor id =
        ({ s with masjids := Masjid.deleteById s.masjids id },
         ⟨200, true, some "Masjid deleted successfully"⟩) ∧
      Masjid.findById (deleteMasjid s actor id).1.masjids id = none) ∧
    (actor.role ≠ Role.main_admin →
      deleteMasjid s actor id =
        (s, ⟨403, false, some "Only main admin can delete masjids"⟩)) ∧
    (actor.role = Role.user →
      (routeDeleteMasjid s actor id).2.status = 403 ∧
      (routeDeleteMasjid s actor id).1 = s) := by
  refine ⟨?_, ?_, ?_⟩
  · intro hrole
    have h : deleteMasjid s actor id =
        ({ s with masjids := Masjid.deleteById s.masjids id },
         ⟨200, true, some "Masjid deleted successfully"⟩) := by
      unfold deleteMasjid
      simp [hm, hrole]
    refine ⟨h, ?_⟩
    rw [h]
    exact Masjid.findById_deleted_none _ _
  · intro hrole
    unfold deleteMasjid
    simp [hm, hrole]
  · intro hrole
    unfold routeDeleteMasjid authorize
    simp [hrole]

/-- Witness for C6 (amended): on `masjidScenario` the main admin deletes
masjid 3, the admin Bob is refused. -/
theorem deleteMasjid_main_admin_only_witness :
    (deleteMasjid masjidScenario mainAdminActor 3 =
        ({ masjidScenario with masjids := Masjid.deleteById masjidScenario.masjids 3 },
         ⟨200, true, some "Masjid deleted successfully"⟩) ∧
      Masjid.findById (deleteMasjid masjidScenario mainAdminActor 3).1.masjids 3 = none) ∧
    deleteMasjid masjidScenario bobAdmin 3 =
      (masjidScenario, ⟨403, false, some "Only main admin can delete masjids"⟩) :=
  ⟨(deleteMasjid_main_admin_only masjidScenario mainAdminActor 3 noorMasjid
      (by decide)).1 rfl,
   (deleteMasjid_main_admin_only masjidScenario bobAdmin 3 noorMasjid
      (by decide)).2.1 (by decide)⟩

/-! ## C8: the geolocation written by an approved `edit_masjid` request -/

theorem Masjid.findById_afterUpdate (ms ms' : List Masjid) (mid i : Nat) (d : MasjidData)
    (loc : Option Location)
    (h : Masjid.findByIdAndUpdate ms (some mid) d loc = some ms') :
    Masjid.findById ms' i =
      (Masjid.findById ms i).map
        (fun m => if some m._id = some mid then Masjid.applyUpdate m d loc else m) := by
  unfold Masjid.findByIdAndUpdate at h
  split_ifs at h
  have h' := Option.some.inj h
  subst h'
  unfold Masjid.findById
  rw [List.find?_map]
  have hfun : ((fun m : Masjid => m._id == i) ∘
      fun m => if some m._id = some mid then Masjid.applyUpdate m d loc else m)
      = fun m : Masjid => m._id == i := by
    funext x
    by_cases hx : x._id = mid
    · simp [Function.comp, hx, Masjid.applyUpdate]
    · simp [Function.comp, hx]
  rw [hfun]

/-- What the `edit_masjid` branch does to the geolocation of an existing
masjid when the index accepts what is written: it becomes
`[longitude, latitude]` of the snapshot when both numbers are truthy (present
and not zero), and is kept otherwise. -/
theorem approveEffect_edit_location (s : State) (r : Request) (mid : Nat) (m : Masjid)
    (ht : r.type = ReqType.edit_masjid) (hid : r.masjidId = some mid)
    (hm : Masjid.findById s.masjids mid = some m)
    (hv : rejectedLocation (editLocation r.masjidData) = false) :
    ∃ s1, approveEffect s r = some s1 ∧
      (Masjid.findById s1.masjids mid).map (fun x => x.location) =
        some (if truthyNum r.masjidData.latitude && truthyNum r.masjidData.longitude
          then ⟨[r.masjidData.longitude, r.masjidData.latitude]⟩ else m.location) := by
  have hmid : m._id = mid := by
    have := List.find?_some hm
    simpa using this
  have hupd : Masjid.findByIdAndUpdate s.masjids (some mid) r.masjidData
      (editLocation r.masjidData) =
      some (s.masjids.map (fun m => if some m._id = some mid
        then Masjid.applyUpdate m r.masjidData (editLocation r.masjidData) else m)) := by
    unfold Masjid.findByIdAndUpdate
    simp [hv]
  refine ⟨{ s with masjids := s.masjids.map (fun m => if some m._id = some mid
      then Masjid.applyUpdate m r.masjidData (editLocation r.masjidData) else m) }, ?_, ?_⟩
  · unfold approveEffect
    simp only [ht, hid, hupd]
  · show (Masjid.findById (s.masjids.map (fun m => if some m._id = some mid
      then Masjid.applyUpdate m r.masjidData (editLocation r.masjidData) else m)) mid).map
      (fun x => x.location) = _
    rw [Masjid.findById_afterUpdate _ _ _ _ _ _ hupd, hm]
    by_cases hc : (truthyNum r.masjidData.latitude && truthyNum r.masjidData.longitude) = true
    · simp [hmid, Masjid.applyUpdate, editLocation, hc]
    · simp [hmid, Masjid.applyUpdate, editLocation, hc]

/-- C8 (the code departs from the claim): masjid 3 has coordinates `[30, 20]`;
Bob submits an `edit_masjid` request for it whose snapshot has `latitude` 0 and
`longitude` 45, both present; the main admin approves it with success, and the
coordinates of the masjid are still `[30, 20]`, because the test
`latitude && longitude` treats the number 0 as absent. -/
theorem edit_masjid_zero_latitude_keeps_location :
    (Masjid.findById masjidScenario.masjids 3).map (fun m => m.location.coordinates)
      = some [some 30, some 20] ∧
    (createRequest masjidScenario bobAdmin equatorEditBody).2.status = 201 ∧
    (Request.findById equatorEditSubmitted.requests 4).map
        (fun r => (r.type, r.masjidId, r.masjidData.latitude, r.masjidData.longitude))
      = some (ReqType.edit_masjid, some 3, some 0, some 45) ∧
    (processRequest equatorEditSubmitted mainAdminActor 4 "approved" none
      StoreFault.noFault).2.status = 200 ∧
    (Masjid.findById (processRequest equatorEditSubmitted mainAdminActor 4 "approved" none
      StoreFault.noFault).1.masjids 3).map (fun m => m.location.coordinates)
      = some [some 30, some 20] := by
  decide

/-! ## C9: deleting a request -/

/-- The outcomes of `deleteRequest` for a well-formed id. -/
theorem deleteRequest_oid_outcomes (s : State) (actor : Actor) (i : Nat) :
    ((deleteRequest s actor (IdParam.oid i)).2.status = 200 ↔
      ∃ r, Request.findById s.requests i = some r ∧
        (r.requestedBy = actor.id ∨ actor.role = Role.main_admin) ∧
        r.status = Status.pending) ∧
    ((deleteRequest s actor (IdParam.oid i)).2.status = 200 →
      (deleteRequest s actor (IdParam.oid i)).1 =
        { s with requests := Request.deleteById s.requests i } ∧
      Request.findById (deleteRequest s actor (IdParam.oid i)).1.requests i = none) ∧
    (Request.findById s.requests i = none →
      deleteRequest s actor (IdParam.oid i) = (s, ⟨404, false, some "Request not found"⟩)) ∧
    (∀ r, Request.findById s.requests i = some r →
      ¬ (r.requestedBy = actor.id ∨ actor.role = Role.main_admin) →
      deleteRequest s actor (IdParam.oid i) =
        (s, ⟨403, false, some "Not authorized to delete this request"⟩)) ∧
    (∀ r, Request.findById s.requests i = some r →
      (r.requestedBy = actor.id ∨ actor.role = Role.main_admin) →
      r.status ≠ Status.pending →
      deleteRequest s actor (IdParam.oid i) =
        (s, ⟨400, false, some "Cannot delete processed requests"⟩)) := by
  cases hr : Request.findById s.requests i with
  | none =>
    have h : deleteRequest s actor (IdParam.oid i) =
        (s, ⟨404, false, some "Request not found"⟩) := by
      unfold deleteRequest; simp [hr]
    rw [h]
    simp
  | some r =>
    by_cases hauth : r.requestedBy = actor.id ∨ actor.role = Role.main_admin
    · by_cases hp : r.status = Status.pending
      · have h : deleteRequest s actor (IdParam.oid i) =
            ({ s with requests := Request.deleteById s.requests i },
             ⟨200, true, some "Request deleted successfully"⟩) := by
          unfold deleteRequest
          have hna : ¬ (r.requestedBy ≠ actor.id ∧ actor.role ≠ Role.main_admin) := by
            intro hc
            rcases hauth with h1 | h1
            · exact hc.1 h1
            · exact hc.2 h1
          simp only [hr, hna, if_false, hp, ne_eq, not_true_eq_false]
        rw [h]
        refine ⟨⟨fun _ => ⟨r, rfl, hauth, hp⟩, fun _ => rfl⟩,
          fun _ => ⟨rfl, Request.findById_deleteById_self _ _⟩, ?_, ?_, ?_⟩
        · intro hc; cases hc
        · intro r1 h1 hn
          cases h1
          exact absurd hauth hn
        · intro r1 h1 _ hn
          cases h1
          exact absurd hp hn
      · have h : deleteRequest s actor (IdParam.oid i) =
            (s, ⟨400, false, some "Cannot delete processed requests"⟩) := by
          unfold deleteRequest
          have hna : ¬ (r.requestedBy ≠ actor.id ∧ actor.role ≠ Role.main_admin) := by
            intro hc
            rcases hauth with h1 | h1
            · exact hc.1 h1
            · exact hc.2 h1
          simp only [hr, hna, if_false, hp, ne_eq, not_false_eq_true, if_true]
        rw [h]
        refine ⟨⟨fun hc => by simp at hc, ?_⟩, fun hc => by simp at hc, ?_, ?_, ?_⟩
        · rintro ⟨r1, h1, _, hp1⟩
          cases h1
          exact absurd hp1 hp
        · intro hc; cases hc
        · intro r1 h1 hn
          cases h1
          exact absurd hauth hn
        · intro _ _ _ _; rfl
    · have h : deleteRequest s actor (IdParam.oid i) =
          (s, ⟨403, false, some "Not authorized to delete this request"⟩) := by
        unfold deleteRequest
        have hna : r.requestedBy ≠ actor.id ∧ actor.role ≠ Role.main_admin :=
          ⟨fun e => hauth (Or.inl e), fun e => hauth (Or.inr e)⟩
        simp only [hr]
        rw [if_pos hna]
      rw [h]
      refine ⟨⟨fun hc => by simp at hc, ?_⟩, fun hc => by simp at hc, ?_, ?_, ?_⟩
      · rintro ⟨r1, h1, ha1, _⟩
        cases h1
        exact absurd ha1 hauth
      · intro hc; cases hc
      · intro _ _ _; rfl
      · intro r1 h1 ha1
        cases h1
        exact absurd ha1 hauth

/-- C9 (the claim fails): a `deleteRequest` whose id is malformed names no
stored request; it is answered 500, not 404, and the stores are unchanged. -/
theorem deleteRequest_malformed_id :
    deleteRequest masjidScenario bobAdmin IdParam.malformed =
      (masjidScenario, ⟨500, false, none⟩) ∧
    (deleteRequest masjidScenario bobAdmin IdParam.malformed).2.status ≠ 404 := by
  decide

/-- C9 (amended): `deleteRequest` succeeds (status 200) if and only if the id
is well-formed, the request exists, the caller is its requester or a
`main_admin`, and it is pending; on success the request is removed and nothing
else changes; otherwise the stores are unchanged and the answer is 500 when the
id is malformed, else 404 when no request has the id, else 403 when the caller
is neither the requester nor a `main_admin`, else 400 when the status is not
pending. -/
theorem deleteRequest_outcomes (s : State) (actor : Actor) (p : IdParam) :
    ((deleteRequest s actor p).2.status = 200 ↔
      ∃ i r, p = IdParam.oid i ∧ Request.findById s.requests i = some r ∧
        (r.requestedBy = actor.id ∨ actor.role = Role.main_admin) ∧
        r.status = Status.pending) ∧
    (∀ i, p = IdParam.oid i → (deleteRequest s actor p).2.status = 200 →
      (deleteRequest s actor p).1 =
        { s with requests := Request.deleteById s.requests i } ∧
      Request.findById (deleteRequest s actor p).1.requests i = none) ∧
    ((deleteRequest s actor p).2.status ≠ 200 → (deleteRequest s actor p).1 = s) ∧
    (p = IdParam.malformed → deleteRequest s actor p = (s, ⟨500, false, none⟩)) ∧
    (∀ i, p = IdParam.oid i → Request.findById s.requests i = none →
      deleteRequest s actor p = (s, ⟨404, false, some "Request not found"⟩)) ∧
    (∀ i r, p = IdParam.oid i → Request.findById s.requests i = some r →
      ¬ (r.requestedBy = actor.id ∨ actor.role = Role.main_admin) →
      deleteRequest s actor p =
        (s, ⟨403, false, some "Not authorized to delete this request"⟩)) ∧
    (∀ i r, p = IdParam.oid i → Request.findById s.requests i = some r →
      (r.requestedBy = actor.id ∨ actor.role = Role.main_admin) →
      r.status ≠ Status.pending →
      deleteRequest s actor p =
        (s, ⟨400, false, some "Cannot delete processed requests"⟩)) := by
  cases p with
  | malformed =>
    have h : deleteRequest s actor IdParam.malformed = (s, ⟨500, false, none⟩) := rfl
    rw [h]
    refine ⟨⟨fun hc => by simp at hc, ?_⟩, ?_, fun _ => rfl, fun _ => rfl, ?_, ?_, ?_⟩
    · rintro ⟨i, r, hp, _⟩
      cases hp
    · intro i hp; cases hp
    · intro i hp; cases hp
    · intro i r hp; cases hp
    · intro i r hp; cases hp
  | oid j =>
    obtain ⟨h1, h2, h3, h4, h5⟩ := deleteRequest_oid_outcomes s actor j
    refine ⟨⟨?_, ?_⟩, ?_, ?_, ?_, ?_, ?_, ?_⟩
    · intro hs
      obtain ⟨r, hr⟩ := h1.1 hs
      exact ⟨j, r, rfl, hr⟩
    · rintro ⟨i, r, hp, hr⟩
      cases hp
      exact h1.2 ⟨r, hr⟩
    · intro i hp hs
      cases hp
      exact h2 hs
    · intro hs
      cases hr : Request.findById s.requests j with
      | none => rw [h3 hr]
      | some r =>
        by_cases ha : r.requestedBy = actor.id ∨ actor.role = Role.main_admin
        · by_cases hpd : r.status = Status.pending
          · exact absurd (h1.2 ⟨r, hr, ha, hpd⟩) hs
          · rw [h5 r hr ha hpd]
        · rw [h4 r hr ha]
    · intro hp; cases hp
    · intro i hp hr
      cases hp
      exact h3 hr
    · intro i r hp hr ha
      cases hp
      exact h4 r hr ha
    · intro i r hp hr ha hpd
      cases hp
      exact h5 r hr ha hpd

/-- Witness for C9 (Scenario E): Bob deleting his own approved request 2 is
answered 400 and the stores are unchanged. -/
theorem deleteRequest_outcomes_witness :
    deleteRequest masjidScenario bobAdmin (IdParam.oid 2) =
      (masjidScenario, ⟨400, false, some "Cannot delete processed requests"⟩) :=
  (deleteRequest_outcomes masjidScenario bobAdmin (IdParam.oid 2)).2.2.2.2.2.2 2
    bobApprovedRequest rfl (by decide) (Or.inl rfl) (by decide)


/-! ## C7: submitting and approving an `add_masjid` request -/

theorem processRequest_nextId_le (s : State) (actor : Actor) (id : Nat) (st : String)
    (ar : Option String) (f : StoreFault) :
    s.nextId ≤ (processRequest s actor id st ar f).1.nextId := by
  unfold processRequest
  cases parseDecision st with
  | none => exact Nat.le_refl _
  | some d =>
    cases Request.findById s.requests id with
    | none => exact Nat.le_refl _
    | some r =>
      by_cases hp : r.status = Status.pending
      · simp only [hp, ne_eq, not_true_eq_false, if_false]
        cases he : sideEffect s
            { r with status := d, adminResponse := ar.map jsTrim, processedBy := some actor.id }
            d f with
        | none => exact Nat.le_refl _
        | some s1 =>
          have hs1 := (sideEffect_requests he).2
          by_cases hf : f = StoreFault.atSave
          · simpa [hf] using hs1
          · simpa [hf] using hs1
      · simp [hp]

theorem step_nextId_le (s : State) (op : Op) : s.nextId ≤ (step s op).1.nextId := by
  cases op with
  | register n e p ok =>
    show s.nextId ≤ (register s n e p ok).1.nextId
    unfold register
    split
    · exact Nat.le_refl _
    · split_ifs
      · exact Nat.le_succ _
      · exact Nat.le_refl _
  | updateUserRole a i r =>
    show s.nextId ≤ (updateUserRole s a i r).1.nextId
    unfold updateUserRole
    split_ifs
    · exact Nat.le_refl _
    · split
      · exact Nat.le_refl _
      · split_ifs
        · exact Nat.le_refl _
        · split <;> exact Nat.le_refl _
  | createMasjid a b =>
    show s.nextId ≤ (createMasjid s a b).1.nextId
    unfold createMasjid
    split_ifs
    · exact Nat.le_refl _
    · exact Nat.le_refl _
    · split
      · exact Nat.le_refl _
      · next s1 h => exact (Masjid.create_frame h).2.2
  | updateMasjid a i b =>
    show s.nextId ≤ (updateMasjid s a i b).1.nextId
    unfold updateMasjid
    repeat' split
    all_goals exact Nat.le_refl _
  | deleteMasjid a i =>
    show s.nextId ≤ (deleteMasjid s a i).1.nextId
    unfold deleteMasjid
    split
    · exact Nat.le_refl _
    · split_ifs <;> exact Nat.le_refl _
  | createRequest a b =>
    show s.nextId ≤ (createRequest s a b).1.nextId
    unfold createRequest
    repeat' split
    all_goals first
      | exact Nat.le_refl _
      | exact Nat.le_succ _
  | processRequest a i st ar f => exact processRequest_nextId_le s a i st ar f
  | deleteRequest a i =>
    show s.nextId ≤ (deleteRequest s a i).1.nextId
    unfold deleteRequest
    repeat' split
    all_goals exact Nat.le_refl _

theorem fresh_step (s : State) (op : Op) (h : Fresh s) : Fresh (step s op).1 := by
  have hle := step_nextId_le s op
  unfold Fresh at *
  rcases step_requests s op with e | ⟨x, e, _, _, _, hid, hnext, _⟩ |
      ⟨r0, r0', h0, _, hid, _, _, e⟩ | ⟨j, r0, _, _, e⟩
  · rw [e]
    intro r hr
    exact Nat.lt_of_lt_of_le (h r hr) hle
  · rw [e]
    intro r hr
    rw [List.mem_append] at hr
    rcases hr with hr | hr
    · exact Nat.lt_of_lt_of_le (h r hr) hle
    · simp at hr
      subst hr
      rw [hid, hnext]
      exact Nat.lt_succ_self _
  · rw [e]
    intro r hr
    unfold Request.save at hr
    rw [List.mem_map] at hr
    obtain ⟨x, hx, hxr⟩ := hr
    split_ifs at hxr
    · subst hxr
      rw [hid]
      exact Nat.lt_of_lt_of_le (h r0 (Request.findById_mem h0)) hle
    · subst hxr
      exact Nat.lt_of_lt_of_le (h x hx) hle
  · rw [e]
    intro r hr
    unfold Request.deleteById at hr
    exact Nat.lt_of_lt_of_le (h r (List.mem_filter.mp hr).1) hle

theorem fresh_run (ops : List Op) (s : State) (h : Fresh s) : Fresh (run s ops) := by
  induction ops generalizing s with
  | nil => exact h
  | cons op ops ih => exact ih (step s op).1 (fresh_step s op h)

theorem findById_nextId_none (s : State) (h : Fresh s) :
    Request.findById s.requests s.nextId = none := by
  unfold Request.findById
  rw [List.find?_eq_none]
  intro x hx
  have := h x hx
  simp
  exact Nat.ne_of_lt this

theorem step_untouched (s : State) (op : Op) (i : Nat) (r : Request)
    (hr : Request.findById s.requests i = some r)
    (hop : touchesRequest i op = false) :
    Request.findById (step s op).1.requests i = some r := by
  cases op with
  | register n e p ok =>
    show Request.findById (register s n e p ok).1.requests i = some r
    rw [register_requests]; exact hr
  | updateUserRole a j ro =>
    show Request.findById (updateUserRole s a j ro).1.requests i = some r
    rw [updateUserRole_requests]; exact hr
  | createMasjid a b =>
    show Request.findById (createMasjid s a b).1.requests i = some r
    rw [createMasjid_requests]; exact hr
  | updateMasjid a j b =>
    show Request.findById (updateMasjid s a j b).1.requests i = some r
    rw [updateMasjid_requests]; exact hr
  | deleteMasjid a j =>
    show Request.findById (deleteMasjid s a j).1.requests i = some r
    rw [deleteMasjid_requests]; exact hr
  | createRequest a b =>
    show Request.findById (createRequest s a b).1.requests i = some r
    rcases createRequest_requests_cases s a b with e | ⟨x, e, _⟩
    · rw [e]; exact hr
    · rw [e]; exact Request.findById_append_some _ hr
  | processRequest a j st ar f =>
    show Request.findById (processRequest s a j st ar f).1.requests i = some r
    have hij : i ≠ j := by
      intro e
      simp [touchesRequest, e] at hop
    rcases processRequest_requests_cases s a j st ar f with e | ⟨d, r0, _, h0, _, _, e⟩
    · rw [e.1]; exact hr
    · rw [e, Request.findById_save_ne]
      · exact hr
      · show i ≠ r0._id
        rw [Request.findById_id h0]; exact hij
  | deleteRequest a p =>
    show Request.findById (deleteRequest s a p).1.requests i = some r
    rcases deleteRequest_requests_cases s a p with e | ⟨j, _, hp, _, _, e⟩
    · rw [e]; exact hr
    · have hij : i ≠ j := by
        intro e'
        simp [touchesRequest, hp, e'] at hop
      rw [e, Request.findById_deleteById_ne _ hij]; exact hr

theorem run_untouched (ops : List Op) (s : State) (i : Nat) (r : Request)
    (hr : Request.findById s.requests i = some r)
    (hops : ∀ op ∈ ops, touchesRequest i op = false) :
    Request.findById (run s ops).requests i = some r := by
  induction ops generalizing s with
  | nil => exact hr
  | cons op ops ih =>
    exact ih (step s op).1
      (step_untouched s op i r hr (hops op (List.mem_cons_self _ _)))
      (fun o ho => hops o (List.mem_cons_of_mem _ ho))

theorem requiredStr_map_some {o : Option String} {f : String → String}
    (h : requiredStr (o.map f) = true) : ∃ x, o = some x := by
  cases o with
  | none => simp [requiredStr] at h
  | some x => exact ⟨x, rfl⟩

/-- C7 (the claim fails): Bob submits an `add_masjid` request whose snapshot
passes the masjid schema and whose name starts with a blank; the main admin
approves it; the name of the masjid that is created is the trimmed name, which
is not the name stored in the snapshot. -/
theorem add_masjid_name_is_trimmed :
    validMasjidData paddedData ⟨[paddedData.longitude, paddedData.latitude]⟩ = true ∧
    (createRequest masjidScenario bobAdmin
      ⟨"add_masjid", none, paddedData.toInput, none⟩).2.status = 201 ∧
    (processRequest paddedSubmitted mainAdminActor 4 "approved" none
      StoreFault.noFault).2.status = 200 ∧
    (Request.findById (processRequest paddedSubmitted mainAdminActor 4 "approved" none
      StoreFault.noFault).1.requests 4).map (fun r => r.masjidData.name)
      = some (some " Al-Huda") ∧
    (Masjid.findById (processRequest paddedSubmitted mainAdminActor 4 "approved" none
      StoreFault.noFault).1.masjids 5).map (fun m => some m.name)
      = some (some "Al-Huda") ∧
    (some "Al-Huda" : Option String) ≠ some " Al-Huda" := by
  decide

/-- C7 (amended): in a state reached from stores with an empty request store,
`createRequest` with type `add_masjid` and a submission that casts to a
snapshot which passes the masjid schema, with a coordinate pair the index on
`location` accepts, stores a pending request; after any calls that neither
process nor delete that request, `processRequest` with decision `approved`
succeeds and appends exactly one masjid, whose `name`, `address`, `description`
and `phoneNumber` are the trimmed values of the snapshot (an absent
`description` or `phoneNumber` gives the empty string), whose `prayerTimes` are
those of the snapshot with an absent `jummah` replaced by the empty string,
whose coordinates are `[snapshot.longitude, snapshot.latitude]` and whose
`addedBy` is the requester. -/
theorem add_masjid_round_trip (s0 : State) (ops0 ws : List Op)
    (requester approver : Actor) (rawId : Option IdParam) (mi : MasjidInput)
    (mid : Option Nat) (md : MasjidData) (reason ar : Option String)
    (h0 : s0.requests = [])
    (hid : castId rawId = some mid)
    (hmd : castMasjidData mi = some md)
    (hvalid : validMasjidData md ⟨[md.longitude, md.latitude]⟩ = true)
    (hws : ∀ op ∈ ws, touchesRequest (run s0 ops0).nextId op = false) :
    (createRequest (run s0 ops0) requester ⟨"add_masjid", rawId, mi, reason⟩).2.status
      = 201 ∧
    (Request.findById
      (run (createRequest (run s0 ops0) requester ⟨"add_masjid", rawId, mi, reason⟩).1
        ws).requests (run s0 ops0).nextId).map (fun r => (r.status, r.masjidData))
      = some (Status.pending, md) ∧
    (processRequest
      (run (createRequest (run s0 ops0) requester ⟨"add_masjid", rawId, mi, reason⟩).1 ws)
      approver (run s0 ops0).nextId "approved" ar StoreFault.noFault).2.status = 200 ∧
    ∃ m : Masjid,
      (processRequest
        (run (createRequest (run s0 ops0) requester ⟨"add_masjid", rawId, mi, reason⟩).1 ws)
        approver (run s0 ops0).nextId "approved" ar StoreFault.noFault).1.masjids
        = (run (createRequest (run s0 ops0) requester
            ⟨"add_masjid", rawId, mi, reason⟩).1 ws).masjids ++ [m] ∧
      some m.name = md.name.map jsTrim ∧
      some m.address = md.address.map jsTrim ∧
      some m.prayerTimes = md.prayerTimes.map castPrayerTimes ∧
      m.description = jsTrim (md.description.getD "") ∧
      m.phoneNumber = jsTrim (md.phoneNumber.getD "") ∧
      m.location.coordinates = [md.longitude, md.latitude] ∧
      m.addedBy = requester.id := by
  have hfresh : Fresh (run s0 ops0) := by
    apply fresh_run
    intro r hr
    rw [h0] at hr
    cases hr
  have hnone := findById_nextId_none _ hfresh
  generalize run s0 ops0 = s at hws hnone ⊢
  have hsub : createRequest s requester ⟨"add_masjid", rawId, mi, reason⟩ =
      ({ s with
          requests := s.requests ++
            [{ _id := s.nextId, type := ReqType.add_masjid, requestedBy := requester.id,
               status := Status.pending, masjidId := mid, masjidData := md,
               reason := reason.map jsTrim, adminResponse := none, processedBy := none }]
          nextId := s.nextId + 1 },
       ⟨201, true, some "Request submitted successfully"⟩) := by
    unfold createRequest
    simp [parseType, hid, hmd]
  rw [hsub]
  have hfind1 : Request.findById (s.requests ++
      [{ _id := s.nextId, type := ReqType.add_masjid, requestedBy := requester.id,
         status := Status.pending, masjidId := mid, masjidData := md,
         reason := reason.map jsTrim, adminResponse := none, processedBy := none }])
      s.nextId = some
        { _id := s.nextId, type := ReqType.add_masjid, requestedBy := requester.id,
          status := Status.pending, masjidId := mid, masjidData := md,
          reason := reason.map jsTrim, adminResponse := none, processedBy := none } := by
    rw [Request.findById_append_none _ hnone]
    simp [Request.findById]
  have hfind2 := run_untouched ws
    { s with
      requests := s.requests ++
        [{ _id := s.nextId, type := ReqType.add_masjid, requestedBy := requester.id,
           status := Status.pending, masjidId := mid, masjidData := md,
           reason := reason.map jsTrim, adminResponse := none, processedBy := none }]
      nextId := s.nextId + 1 } s.nextId _ hfind1 hws
  simp only at hfind2 ⊢
  generalize run _ ws = s2 at hfind2 ⊢
  have hv := hvalid
  unfold validMasjidData at hv
  simp only [Bool.and_eq_true] at hv
  obtain ⟨⟨⟨hname, haddr⟩, hprayer⟩, _⟩ := hv
  obtain ⟨n, hn⟩ := requiredStr_map_some hname
  obtain ⟨a, ha⟩ := requiredStr_map_some haddr
  obtain ⟨pt, hpt⟩ : ∃ pt, md.prayerTimes = some pt := by
    cases hp : md.prayerTimes with
    | none => simp [hp] at hprayer
    | some pt => exact ⟨pt, rfl⟩
  have hres : processRequest s2 approver s.nextId "approved" ar StoreFault.noFault =
      ({ s2 with
          masjids := s2.masjids ++
            [Masjid.build s2.nextId md ⟨[md.longitude, md.latitude]⟩ requester.id]
          nextId := s2.nextId + 1
          requests := Request.save s2.requests
            { _id := s.nextId, type := ReqType.add_masjid, requestedBy := requester.id,
              status := Status.approved, masjidId := mid, masjidData := md,
              reason := reason.map jsTrim, adminResponse := ar.map jsTrim,
              processedBy := some approver.id } },
       ⟨200, true, some "Request approved successfully"⟩) := by
    unfold processRequest
    simp [parseDecision, hfind2, sideEffect, approveEffect, Masjid.create, hvalid]
  rw [hres]
  refine ⟨trivial, ?_, rfl,
    Masjid.build s2.nextId md ⟨[md.longitude, md.latitude]⟩ requester.id,
    rfl, ?_, ?_, ?_, rfl, rfl, rfl, rfl⟩
  · rw [hfind2]; rfl
  · simp [Masjid.build, hn]
  · simp [Masjid.build, ha]
  · simp [Masjid.build, hpt]

/-- Witness for C7 (amended): the padded submission of Bob on `masjidScenario`,
approved after a direct `updateMasjid` of masjid 3 by the main admin. -/
theorem add_masjid_round_trip_witness :
    ∃ m : Masjid,
      (processRequest
        (run (createRequest (run State.empty masjidOps) bobAdmin
          ⟨"add_masjid", none, paddedData.toInput, none⟩).1
          [Op.updateMasjid mainAdminActor 3 noorBody])
        mainAdminActor (run State.empty masjidOps).nextId "approved" none
        StoreFault.noFault).1.masjids
        = (run (createRequest (run State.empty masjidOps) bobAdmin
            ⟨"add_masjid", none, paddedData.toInput, none⟩).1
            [Op.updateMasjid mainAdminActor 3 noorBody]).masjids ++ [m] ∧
      some m.name = paddedData.name.map jsTrim ∧
      some m.address = paddedData.address.map jsTrim ∧
      some m.prayerTimes = paddedData.prayerTimes.map castPrayerTimes ∧
      m.description = jsTrim (paddedData.description.getD "") ∧
      m.phoneNumber = jsTrim (paddedData.phoneNumber.getD "") ∧
      m.location.coordinates = [paddedData.longitude, paddedData.latitude] ∧
      m.addedBy = bobAdmin.id :=
  (add_masjid_round_trip State.empty masjidOps [Op.updateMasjid mainAdminActor 3 noorBody]
    bobAdmin mainAdminActor none paddedData.toInput none paddedData none none rfl rfl
    (by decide) (by decide) (by decide)).2.2.2

/-! ## C11: registration and the role `main_admin` -/

/-- A successful `register` appends one account, which holds `main_admin` when
the store was empty and `user` otherwise. -/
theorem register_success (s : State) (n e p : String) (ok : Bool)
    (h : (register s n e p ok).2.status = 201) :
    ∃ u, (register s n e p ok).1.users = s.users ++ [u] ∧ u.name = n ∧ u.email = e ∧
      u.role = (if s.users.length = 0 then Role.main_admin else Role.user) := by
  unfold register at h ⊢
  cases hf : User.findOneByEmail s.users e with
  | some x => simp [hf] at h
  | none =>
    cases ok with
    | false => simp [hf] at h
    | true => exact ⟨_, rfl, rfl, rfl, rfl⟩

theorem register_users_cases (s : State) (n e p : String) (ok : Bool) :
    (register s n e p ok).1.users = s.users ∨
    ∃ u, (register s n e p ok).1.users = s.users ++ [u] ∧
      u.role = (if s.users.length = 0 then Role.main_admin else Role.user) := by
  unfold register
  cases User.findOneByEmail s.users e with
  | some x => exact Or.inl rfl
  | none =>
    cases ok with
    | false => exact Or.inl rfl
    | true => exact Or.inr ⟨_, rfl, rfl⟩

theorem firstIsMain_register (s : State) (n e p : String) (ok : Bool)
    (h : FirstIsMain s.users) : FirstIsMain (register s n e p ok).1.users := by
  rcases register_users_cases s n e p ok with e1 | ⟨u, e1, hu⟩
  · rw [e1]; exact h
  · rw [e1]
    cases hus : s.users with
    | nil =>
      rw [hus] at hu
      constructor
      · intro v hv
        simp at hv
        subst hv
        simpa using hu
      · intro v hv
        simp at hv
    | cons x xs =>
      rw [hus] at hu h
      constructor
      · intro v hv
        simp at hv
        exact h.1 v (by simp [hv])
      · intro v hv
        simp at hv
        rcases hv with hv | hv
        · exact h.2 v (by simpa using hv)
        · subst hv
          simpa using hu

theorem firstIsMain_run (ops : List Op) (s : State) (h : FirstIsMain s.users)
    (hops : ∀ op ∈ ops, isRegister op = true) : FirstIsMain (run s ops).users := by
  induction ops generalizing s with
  | nil => exact h
  | cons op ops ih =>
    have hop := hops op (List.mem_cons_self _ _)
    cases op with
    | register n e p ok =>
      exact ih (step s (Op.register n e p ok)).1 (firstIsMain_register s n e p ok h)
        (fun o ho => hops o (List.mem_cons_of_mem _ ho))
    | updateUserRole a i r => simp [isRegister] at hop
    | createMasjid a b => simp [isRegister] at hop
    | updateMasjid a i b => simp [isRegister] at hop
    | deleteMasjid a i => simp [isRegister] at hop
    | createRequest a b => simp [isRegister] at hop
    | processRequest a i st ar f => simp [isRegister] at hop
    | deleteRequest a i => simp [isRegister] at hop

theorem firstIsMain_count (us : List User) (h : FirstIsMain us) (hne : us ≠ []) :
    us.countP isMainAdmin = 1 ∧ us.head?.map (fun u => u.role) = some Role.main_admin := by
  cases us with
  | nil => exact absurd rfl hne
  | cons x xs =>
    have hx : x.role = Role.main_admin := h.1 x rfl
    have hxs : List.countP isMainAdmin xs = 0 := by
      rw [List.countP_eq_zero]
      intro a ha
      have := h.2 a (by simpa using ha)
      simp [isMainAdmin, this]
    constructor
    · rw [List.countP_cons, hxs]
      simp [isMainAdmin, hx]
    · simp [hx]

/-- C11: a successful `register` creates one account, whose role is
`main_admin` if and only if the user store was empty before the call and `user`
otherwise; after any sequence of `register` calls on an empty user store that
created at least one account, exactly one account holds `main_admin` and it is
the first account of the store; and a `register` with an email that is already
stored answers 400 and returns the stores unchanged. -/
theorem register_main_admin_is_first :
    (∀ (s : State) (n e p : String) (ok : Bool), (register s n e p ok).2.status = 201 →
      ∃ u, (register s n e p ok).1.users = s.users ++ [u] ∧
        (u.role = Role.main_admin ↔ s.users = []) ∧
        (u.role = Role.user ↔ s.users ≠ [])) ∧
    (∀ (s0 : State) (ops : List Op), s0.users = [] →
      (∀ op ∈ ops, isRegister op = true) → (run s0 ops).users ≠ [] →
      (run s0 ops).users.countP isMainAdmin = 1 ∧
      (run s0 ops).users.head?.map (fun u => u.role) = some Role.main_admin) ∧
    (∀ (s : State) (n e p : String) (ok : Bool) (u : User),
      User.findOneByEmail s.users e = some u →
      register s n e p ok = (s, ⟨400, false, some "User already exists with this email"⟩)) := by
  refine ⟨?_, ?_, ?_⟩
  · intro s n e p ok h
    obtain ⟨u, hu, _, _, hrole⟩ := register_success s n e p ok h
    refine ⟨u, hu, ?_, ?_⟩
    · rw [hrole]
      cases hus : s.users with
      | nil => simp
      | cons x xs => simp
    · rw [hrole]
      cases hus : s.users with
      | nil => simp
      | cons x xs => simp
  · intro s0 ops h0 hops hne
    apply firstIsMain_count _ _ hne
    apply firstIsMain_run ops s0 _ hops
    rw [h0]
    exact ⟨fun u hu => by simp at hu, fun u hu => by simp at hu⟩
  · intro s n e p ok u hu
    unfold register
    simp [hu]

/-- Witness for C11 (Scenario A): Alice registers first and holds `main_admin`,
Bob registers second and holds `user`; a third registration with the email of
Alice is answered 400. -/
theorem register_main_admin_is_first_witness :
    ((run State.empty scenarioA).users.countP isMainAdmin = 1 ∧
      (run State.empty scenarioA).users.head?.map (fun u => u.role)
        = some Role.main_admin) ∧
    register (run State.empty scenarioA) "Eve" "a@x.com" "pw" true =
      (run State.empty scenarioA,
        ⟨400, false, some "User already exists with this email"⟩) :=
  ⟨register_main_admin_is_first.2.1 State.empty scenarioA rfl (by decide) (by decide),
   register_main_admin_is_first.2.2 (run State.empty scenarioA) "Eve" "a@x.com" "pw" true
     aliceAccount (by decide)⟩

/-! ## C12: `updateUserRole` -/

theorem User.findById_hasId {us : List User} {i : Nat} {u : User}
    (h : User.findById us i = some u) : u._id = i := by
  have := List.find?_some h
  simpa using this

/-- C12: when the target account exists and holds `main_admin`,
`updateUserRole` answers 403 and returns the stores unchanged, for every caller
and every requested role; when the caller is a `main_admin` and the target
exists and does not hold `main_admin`, it answers 400 and changes nothing
unless the requested role is `user` or `admin` (the two strings accepted by
`parseNewRole`), and otherwise answers 200, stores the target with the
requested role and leaves every other account as it was. -/
theorem updateUserRole_outcomes (s : State) (actor : Actor) (id : Nat) (role : String)
    (t : User) (ht : User.findById s.users id = some t) :
    (t.role = Role.main_admin →
      (updateUserRole s actor id role).2.status = 403 ∧
      (updateUserRole s actor id role).1 = s) ∧
    (actor.role = Role.main_admin → t.role ≠ Role.main_admin →
      (parseNewRole role = none →
        updateUserRole s actor id role =
          (s, ⟨400, false, some "Invalid role. Can only set to user or admin"⟩)) ∧
      (∀ r, parseNewRole role = some r →
        (updateUserRole s actor id role).2.status = 200 ∧
        User.findById (updateUserRole s actor id role).1.users id
          = some { t with role := r } ∧
        (∀ j u, j ≠ id → User.findById s.users j = some u →
          User.findById (updateUserRole s actor id role).1.users j = some u))) ∧
    (parseNewRole "user" = some Role.user ∧ parseNewRole "admin" = some Role.admin ∧
      (role ≠ "user" → role ≠ "admin" → parseNewRole role = none)) := by
  refine ⟨?_, ?_, ⟨by decide, by decide, fun h1 h2 => by simp [parseNewRole, h1, h2]⟩⟩
  · intro hmain
    unfold updateUserRole
    by_cases ha : actor.role = Role.main_admin
    · simp [ha, ht, hmain]
    · simp [ha]
  · intro ha hnm
    refine ⟨?_, ?_⟩
    · intro hnone
      unfold updateUserRole
      simp [ha, ht, hnm, hnone]
    · intro r hr
      have h : updateUserRole s actor id role =
          ({ s with users := User.findByIdAndUpdateRole s.users id r },
           ⟨200, true, some ("User role updated to " ++ role)⟩) := by
        unfold updateUserRole
        simp [ha, ht, hnm, hr]
      rw [h]
      refine ⟨rfl, ?_, ?_⟩
      · show User.findById (User.findByIdAndUpdateRole s.users id r) id = _
        rw [User.findById_roleUpdate, ht]
        simp [User.findById_hasId ht]
      · intro j u hj hu
        exact User.findById_roleUpdate_other _ r u (fun e => hj e.symm) hu

/-- Witness for C12: on `masjidScenario` the main admin cannot change the
role of the main admin, is refused the role `owner` for Bob, and sets Bob back
to `user`. -/
theorem updateUserRole_outcomes_witness :
    ((updateUserRole masjidScenario mainAdminActor 0 "user").2.status = 403 ∧
      (updateUserRole masjidScenario mainAdminActor 0 "user").1 = masjidScenario) ∧
    updateUserRole masjidScenario mainAdminActor 1 "owner" =
      (masjidScenario, ⟨400, false, some "Invalid role. Can only set to user or admin"⟩) ∧
    User.findById (updateUserRole masjidScenario mainAdminActor 1 "user").1.users 1
      = some { bobAccount with role := Role.user } :=
  ⟨(updateUserRole_outcomes masjidScenario mainAdminActor 0 "user" aliceAccount
      (by decide)).1 rfl,
   ((updateUserRole_outcomes masjidScenario mainAdminActor 1 "owner" bobAccount
      (by decide)).2.1 rfl (by decide)).1 (by decide),
   (((updateUserRole_outcomes masjidScenario mainAdminActor 1 "user" bobAccount
      (by decide)).2.1 rfl (by decide)).2 Role.user (by decide)).2.1⟩

/-! ## C13: the target masjid of a stored request -/

/-- C13 (the claim fails): on `masjidScenario` Bob submits an `edit_masjid`
request and a `delete_masjid` request without `masjidId` and an `add_masjid`
request and an `admin_access` request with `masjidId` 3; each submission is
answered 201 and stored with the `masjidId` it came with. -/
theorem createRequest_stores_any_masjidId :
    (createRequest masjidScenario bobAdmin ⟨"edit_masjid", none, emptyInput, none⟩).2.status
      = 201 ∧
    (Request.findById (createRequest masjidScenario bobAdmin
        ⟨"edit_masjid", none, emptyInput, none⟩).1.requests 4).map
        (fun r => (r.type, r.masjidId)) = some (ReqType.edit_masjid, none) ∧
    (Request.findById (createRequest masjidScenario bobAdmin
        ⟨"delete_masjid", none, emptyInput, none⟩).1.requests 4).map
        (fun r => (r.type, r.masjidId)) = some (ReqType.delete_masjid, none) ∧
    (Request.findById (createRequest masjidScenario bobAdmin
        ⟨"add_masjid", some (IdParam.oid 3), noorBody.toInput, none⟩).1.requests 4).map
        (fun r => (r.type, r.masjidId)) = some (ReqType.add_masjid, some 3) ∧
    (Request.findById (createRequest masjidScenario bobAdmin
        ⟨"admin_access", some (IdParam.oid 3), emptyInput, none⟩).1.requests 4).map
        (fun r => (r.type, r.masjidId)) = some (ReqType.admin_access, some 3) := by
  decide

/-- C13 (amended): for every input, `createRequest` either rejects the
submission (status 400, or 500 when a submitted value cannot be cast) and
returns the stores unchanged, or answers 201 and appends exactly one request,
whose type is the submitted type and whose `masjidId` is the submitted
`masjidId`, present or absent, whatever the type. -/
theorem createRequest_masjidId_as_submitted (s : State) (a : Actor) (b : RequestBody) :
    (((createRequest s a b).2.status = 400 ∨ (createRequest s a b).2.status = 500) ∧
      (createRequest s a b).1 = s) ∨
    ((createRequest s a b).2.status = 201 ∧
      ∃ r, (createRequest s a b).1.requests = s.requests ++ [r] ∧
        (createRequest s a b).1.users = s.users ∧
        (createRequest s a b).1.masjids = s.masjids ∧
        parseType b.type = some r.type ∧ castId b.masjidId = some r.masjidId ∧
        castMasjidData b.masjidData = some r.masjidData ∧
        r.requestedBy = a.id) := by
  unfold createRequest
  cases ht : parseType b.type with
  | none => left; exact ⟨Or.inl rfl, rfl⟩
  | some t =>
    by_cases hc : t = ReqType.admin_access ∧
        (Request.findPendingAdminAccess s.requests a.id).isSome
    · left
      simp only [hc, and_self, if_true]
      exact ⟨Or.inl trivial, trivial⟩
    · simp only [hc, if_false]
      cases hid : castId b.masjidId with
      | none => left; exact ⟨Or.inr rfl, rfl⟩
      | some mid =>
        cases hmd : castMasjidData b.masjidData with
        | none => left; exact ⟨Or.inr rfl, rfl⟩
        | some md => right; exact ⟨rfl, _, rfl, rfl, rfl, rfl, rfl, rfl, rfl⟩

/-- The rejections of `Request.create`: a malformed `masjidId` and a latitude
that is not a number are answered 500 and nothing is stored. -/
theorem createRequest_cast_errors (s : State) (a : Actor) (mi : MasjidInput)
    (reason : Option String) :
    createRequest s a ⟨"edit_masjid", some IdParam.malformed, mi, reason⟩
      = (s, ⟨500, false, none⟩) ∧
    createRequest s a
      ⟨"add_masjid", none, { mi with latitude := some NumParam.notNumber }, reason⟩
      = (s, ⟨500, false, none⟩) := by
  constructor
  · unfold createRequest
    simp [parseType, castId]
  · unfold createRequest
    simp [parseType, castId, castMasjidData, castNum]

end MasjidFind
